import Mathlib

/-!
Verification of the MCAT moderation-status batch-checking engine.

This file gives a shallow embedding, in Lean, of the core components of the
repository: the YouTube page classifier (src/scrapers/youtube_scraper.py),
the WebDriver session pool (src/core/driver_manager.py), the batch
coordinator (src/core/batch_processor.py) and the CSV join/aggregation
helpers (src/utils/csv_handler.py), together with theorems that settle the
frozen claims C1..C10 about them.

Modelling conventions:
- Effects of the browser and of the filesystem are passed in explicitly: a
  `ScrapeEnv` records, for one classifier invocation, the outcome of each
  fallible step (driver acquisition, navigation, wait-for-body, reading the
  page source, the warning-element DOM probe); `Except String` models a
  Python call that either returns or raises with a message.
- A pandas DataFrame is a `Df`: a column-name list plus rows of cells, a
  cell being `Option String` with `none` for NaN.
- Thread scheduling is modelled by an explicit completion `order` (a
  permutation of the submitted indices), since the coordinator collects
  worker results in arbitrary completion order.
-/

/-! ## Generic list helpers (with the small get?/set lemmas the proofs use) -/

def startsWithL : List Char → List Char → Bool
  | _, [] => true
  | [], _ :: _ => false
  | c :: cs, d :: ds => c == d && startsWithL cs ds

def hasSubstr : List Char → List Char → Bool
  | [], needle => startsWithL [] needle
  | c :: rest, needle => startsWithL (c :: rest) needle || hasSubstr rest needle

theorem startsWithL_map (f : Char → Char) :
    ∀ h n : List Char, startsWithL h n = true → startsWithL (h.map f) (n.map f) = true := by
  intro h n
  induction n generalizing h with
  | nil => intro _; cases h <;> rfl
  | cons d ds ih =>
    intro hs
    cases h with
    | nil => simp [startsWithL] at hs
    | cons c cs =>
      simp only [startsWithL, Bool.and_eq_true, beq_iff_eq] at hs
      simp only [List.map_cons, startsWithL, Bool.and_eq_true, beq_iff_eq]
      exact ⟨by rw [hs.1], ih cs hs.2⟩

theorem hasSubstr_map (f : Char → Char) :
    ∀ hay needle : List Char, hasSubstr hay needle = true →
      hasSubstr (hay.map f) (needle.map f) = true := by
  intro hay
  induction hay with
  | nil =>
    intro needle h
    cases needle with
    | nil => rfl
    | cons d ds => simp [hasSubstr, startsWithL] at h
  | cons c cs ih =>
    intro needle h
    simp only [hasSubstr, Bool.or_eq_true] at h
    simp only [List.map_cons, hasSubstr, Bool.or_eq_true]
    cases h with
    | inl h => exact Or.inl (startsWithL_map f (c :: cs) needle h)
    | inr h => exact Or.inr (ih needle h)

theorem get?_append_lt {α : Type} :
    ∀ (l1 l2 : List α) (i : Nat), i < l1.length → (l1 ++ l2).get? i = l1.get? i := by
  intro l1
  induction l1 with
  | nil => intro l2 i h; simp at h
  | cons a l ih =>
    intro l2 i h
    cases i with
    | zero => rfl
    | succ j => simpa using ih l2 j (by simpa using h)

theorem get?_append_ge {α : Type} :
    ∀ (l1 l2 : List α) (i : Nat), l1.length ≤ i →
      (l1 ++ l2).get? i = l2.get? (i - l1.length) := by
  intro l1
  induction l1 with
  | nil => intro l2 i _; simp
  | cons a l ih =>
    intro l2 i h
    cases i with
    | zero => simp at h
    | succ j => simpa using ih l2 j (by simpa using h)

theorem get?_set_self {α : Type} :
    ∀ (l : List α) (i : Nat) (v : α), i < l.length → (l.set i v).get? i = some v := by
  intro l
  induction l with
  | nil => intro i v h; simp at h
  | cons a t ih =>
    intro i v h
    cases i with
    | zero => rfl
    | succ j => simpa using ih j v (by simpa using h)

theorem get?_set_ne {α : Type} :
    ∀ (l : List α) (i j : Nat) (v : α), i ≠ j → (l.set i v).get? j = l.get? j := by
  intro l
  induction l with
  | nil => intro i j v _; simp
  | cons a t ih =>
    intro i j v hne
    cases i with
    | zero =>
      cases j with
      | zero => exact absurd rfl hne
      | succ k => rfl
    | succ i' =>
      cases j with
      | zero => rfl
      | succ k => simpa using ih i' k v (fun h => hne (by rw [h]))

theorem length_filterMap_eq_countP {α β : Type} (f : α → Option β) :
    ∀ l : List α, (l.filterMap f).length = l.countP (fun a => (f a).isSome) := by
  intro l
  induction l with
  | nil => rfl
  | cons a t ih =>
    cases hfa : f a with
    | none => simp [List.filterMap_cons, List.countP_cons, hfa, ih]
    | some b => simp [List.filterMap_cons, List.countP_cons, hfa, ih]

/-! ## The classifier result record (src/scrapers/base_scraper.py, `ScrapingResult`) -/

structure ScrapingResult where
  url : String := ""
  status : String := ""
  info : String := ""
  timestamp : String := ""
  error_message : String := ""
  platform : String := ""
deriving DecidableEq

/-! ## The environment of one `check_url_status` call

Each field records the outcome of one fallible step of the Python method
(src/scrapers/youtube_scraper.py, `YouTubeScraper.check_url_status`):
`Except.error e` means the underlying Selenium call raised with message `e`.
`findWarnings` is the outcome of the warning-element probe
(`driver.find_elements` plus reading `.text` of the first element). `now` is
the timestamp taken when the `ScrapingResult` is constructed. -/

deriving instance DecidableEq for Except

structure ScrapeEnv where
  getDriver : Except String Nat
  navigate : Except String Unit
  waitBody : Except String Unit
  pageSource : Except String String
  findWarnings : Except String (List String)
  now : String
deriving DecidableEq

/-- Python `str.lower()` restricted to the ASCII range used by the markers. -/
def lower (s : String) : String := String.mk (s.toList.map Char.toLower)

def removedPhrases : List String :=
  ["video unavailable", "this video is not available",
   "removed by the user", "account has been terminated"]

def agePhrases : List String :=
  ["age-restricted", "sign in to confirm your age"]

def geoPhrase : String := "not available in your country"

def privatePhrase : String := "private video"

/-- Python `any(phrase in page for phrase in phrases)`. -/
def containsAnyPhrase (page : String) (phrases : List String) : Bool :=
  phrases.any (fun p => hasSubstr page.toList p.toList)

/-- Embedding of `YouTubeScraper.check_url_status`. The Python method builds
a `ScrapingResult`, acquires a driver from the pool, navigates, waits for the
body element, lowercases the page source and tests an ordered list of marker
checks; the outer `except Exception` turns any failure of those steps into an
`Error` result, while a failure of the warning-element probe is swallowed by
an inner bare `except` and classification falls through to `Live`. -/
def check_url_status (env : ScrapeEnv) (url : String) : ScrapingResult :=
  let base : ScrapingResult :=
    { url := url, platform := "youtube", timestamp := env.now }
  match env.getDriver with
  | .error e => { base with status := "Error", error_message := e }
  | .ok _ =>
    match env.navigate with
    | .error e => { base with status := "Error", error_message := e }
    | .ok _ =>
      match env.waitBody with
      | .error e => { base with status := "Error", error_message := e }
      | .ok _ =>
        match env.pageSource with
        | .error e => { base with status := "Error", error_message := e }
        | .ok src =>
          let page := lower src
          if containsAnyPhrase page removedPhrases then
            { base with status := "Removed", info := "Video unavailable" }
          else if containsAnyPhrase page agePhrases then
            { base with status := "Age-restricted", info := "Age verification required" }
          else if hasSubstr page.toList geoPhrase.toList then
            { base with status := "Geo-blocked", info := "Not available in your region" }
          else if hasSubstr page.toList privatePhrase.toList then
            { base with status := "Private", info := "Video is private" }
          else
            match env.findWarnings with
            | .ok (w :: _) =>
              { base with status := "Restricted",
                          info := "Warning: " ++ String.mk (w.toList.take 100) }
            | _ => { base with status := "Live", info := "Video available" }

/-- The whole closed status taxonomy the YouTube classifier can emit. -/
def statuses7 : List String :=
  ["Error", "Removed", "Age-restricted", "Geo-blocked", "Private", "Restricted", "Live"]

/-- All conditions of the classifier checked and found false: the page shows
none of the removal, age, geo or private markers. -/
def noMarkers (page : String) : Bool :=
  !containsAnyPhrase page removedPhrases &&
  !containsAnyPhrase page agePhrases &&
  !hasSubstr page.toList geoPhrase.toList &&
  !hasSubstr page.toList privatePhrase.toList

theorem check_url_eq (env : ScrapeEnv) (u : String) : (check_url_status env u).url = u := by
  unfold check_url_status
  cases env.getDriver <;> cases env.navigate <;> cases env.waitBody <;>
    cases env.pageSource <;> simp only <;>
    (try split) <;> (try split) <;> (try split) <;> (try split) <;> (try split) <;> rfl

theorem check_status_mem (env : ScrapeEnv) (u : String) :
    (check_url_status env u).status ∈ statuses7 := by
  unfold check_url_status
  cases env.getDriver <;> cases env.navigate <;> cases env.waitBody <;>
    cases env.pageSource <;> simp only <;>
    (try split) <;> (try split) <;> (try split) <;> (try split) <;> (try split) <;>
    simp [statuses7]

/-- The `Error` result the outer `except Exception` handler produces. -/
def errRes (url ts e : String) : ScrapingResult :=
  { url := url, platform := "youtube", timestamp := ts,
    status := "Error", info := "", error_message := e }

/-- The lowercase marker phrases are fixed points of lowercasing. -/
theorem removed0_toLower_fix :
    "video unavailable".toList.map Char.toLower = "video unavailable".toList := by decide

theorem lower_toList (s : String) : (lower s).toList = s.toList.map Char.toLower := rfl

/-- A page whose raw source contains the literal phrase `video unavailable`
still contains it after lowercasing. -/
theorem removed_marker_survives_lower (src : String)
    (h : hasSubstr src.toList ("video unavailable".toList) = true) :
    containsAnyPhrase (lower src) removedPhrases = true := by
  have h2 := hasSubstr_map Char.toLower src.toList ("video unavailable".toList) h
  rw [removed0_toLower_fix] at h2
  simp only [containsAnyPhrase, removedPhrases, List.any_cons, Bool.or_eq_true]
  exact Or.inl (by rw [lower_toList]; exact h2)

/-- C1 (amended): a failure of driver acquisition, navigation, the
wait-for-body, or the page-source read is caught by the outer
handler and becomes a single `Error` result carrying the failure detail,
while a failure of the DOM warning-element probe is swallowed and the
classification falls through to `Live`; in every case exactly one
`ScrapingResult` is returned and no exception escapes (the embedding is a
total function). -/
theorem c1_error_paths (env : ScrapeEnv) (url e : String) :
    (env.getDriver = .error e → check_url_status env url = errRes url env.now e) ∧
    (∀ d, env.getDriver = .ok d → env.navigate = .error e →
      check_url_status env url = errRes url env.now e) ∧
    (∀ d, env.getDriver = .ok d → env.navigate = .ok () → env.waitBody = .error e →
      check_url_status env url = errRes url env.now e) ∧
    (∀ d, env.getDriver = .ok d → env.navigate = .ok () → env.waitBody = .ok () →
      env.pageSource = .error e →
      check_url_status env url = errRes url env.now e) ∧
    (∀ d src, env.getDriver = .ok d → env.navigate = .ok () → env.waitBody = .ok () →
      env.pageSource = .ok src → noMarkers (lower src) = true →
      env.findWarnings = .error e →
      check_url_status env url =
        { url := url, platform := "youtube", timestamp := env.now,
          status := "Live", info := "Video available", error_message := "" }) := by
  refine ⟨?_, ?_, ?_, ?_, ?_⟩
  · intro h; simp [check_url_status, h, errRes]
  · intro d hg hn; simp [check_url_status, hg, hn, errRes]
  · intro d hg hn hw; simp [check_url_status, hg, hn, hw, errRes]
  · intro d hg hn hw hp; simp [check_url_status, hg, hn, hw, hp, errRes]
  · intro d src hg hn hw hp hm hf
    simp only [noMarkers, Bool.and_eq_true, Bool.not_eq_true'] at hm
    obtain ⟨⟨⟨h1, h2⟩, h3⟩, h4⟩ := hm
    simp only [String.toList] at h3 h4
    simp [check_url_status, hg, hn, hw, hp, h1, h2, h3, h4, hf]

/-- C1 counterexample: a concrete environment in which the DOM
warning-element probe raises (`findWarnings` is an error) yet the returned
status is `Live` with an empty error field, not `Error` as the claim
states for any DOM-inspection failure. -/
def envProbeFail : ScrapeEnv :=
  { getDriver := .ok 0, navigate := .ok (), waitBody := .ok (),
    pageSource := .ok "", findWarnings := .error "stale element reference",
    now := "2024-01-01 00:00:00" }

/-- C1 counterexample theorem: at `envProbeFail` the probe fails with an
exception, but the result is `Live` with no error detail. -/
theorem c1_probe_failure_cex :
    envProbeFail.findWarnings = .error "stale element reference" ∧
    (check_url_status envProbeFail "https://youtube.com/watch?v=a").status = "Live" ∧
    (check_url_status envProbeFail "https://youtube.com/watch?v=a").status ≠ "Error" ∧
    (check_url_status envProbeFail "https://youtube.com/watch?v=a").error_message = "" := by
  refine ⟨rfl, ?_, ?_, ?_⟩ <;> decide

/-- C1 witness: the amended theorem applied at concrete environments for a
navigation failure and for a swallowed probe failure. -/
theorem c1_witness :
    check_url_status
        { getDriver := .ok 0, navigate := .error "timeout", waitBody := .ok (),
          pageSource := .ok "", findWarnings := .ok [], now := "t" }
        "u" = errRes "u" "t" "timeout" ∧
    check_url_status envProbeFail "u" =
      { url := "u", platform := "youtube", timestamp := "2024-01-01 00:00:00",
        status := "Live", info := "Video available", error_message := "" } := by
  constructor
  · exact (c1_error_paths
      { getDriver := .ok 0, navigate := .error "timeout", waitBody := .ok (),
        pageSource := .ok "", findWarnings := .ok [], now := "t" }
      "u" "timeout").2.1 0 rfl rfl
  · exact (c1_error_paths envProbeFail "u" "stale element reference").2.2.2.2
      0 "" rfl rfl rfl rfl (by decide) rfl

/-- C2 (confirmed): on a successfully loaded page the classifier tests the
markers in the fixed order removed, age-restriction, geo-block, private,
then the DOM warning probe, returning at the first match and defaulting to
`Live`; a page whose content contains the phrase `video unavailable` is
always classified `Removed`, and a page with no markers and no warning
elements is classified `Live`. -/
theorem c2_ordered_checks (env : ScrapeEnv) (url src : String) (d : Nat)
    (hg : env.getDriver = .ok d) (hn : env.navigate = .ok ())
    (hw : env.waitBody = .ok ()) (hp : env.pageSource = .ok src) :
    (containsAnyPhrase (lower src) removedPhrases = true →
      check_url_status env url =
        { url := url, platform := "youtube", timestamp := env.now,
          status := "Removed", info := "Video unavailable", error_message := "" }) ∧
    (containsAnyPhrase (lower src) removedPhrases = false →
      containsAnyPhrase (lower src) agePhrases = true →
      check_url_status env url =
        { url := url, platform := "youtube", timestamp := env.now,
          status := "Age-restricted", info := "Age verification required",
          error_message := "" }) ∧
    (containsAnyPhrase (lower src) removedPhrases = false →
      containsAnyPhrase (lower src) agePhrases = false →
      hasSubstr (lower src).toList geoPhrase.toList = true →
      check_url_status env url =
        { url := url, platform := "youtube", timestamp := env.now,
          status := "Geo-blocked", info := "Not available in your region",
          error_message := "" }) ∧
    (containsAnyPhrase (lower src) removedPhrases = false →
      containsAnyPhrase (lower src) agePhrases = false →
      hasSubstr (lower src).toList geoPhrase.toList = false →
      hasSubstr (lower src).toList privatePhrase.toList = true →
      check_url_status env url =
        { url := url, platform := "youtube", timestamp := env.now,
          status := "Private", info := "Video is private", error_message := "" }) ∧
    (noMarkers (lower src) = true → ∀ w ws, env.findWarnings = .ok (w :: ws) →
      check_url_status env url =
        { url := url, platform := "youtube", timestamp := env.now,
          status := "Restricted",
          info := "Warning: " ++ String.mk (w.toList.take 100),
          error_message := "" }) ∧
    (noMarkers (lower src) = true → env.findWarnings = .ok [] →
      check_url_status env url =
        { url := url, platform := "youtube", timestamp := env.now,
          status := "Live", info := "Video available", error_message := "" }) ∧
    (hasSubstr src.toList ("video unavailable".toList) = true →
      (check_url_status env url).status = "Removed") := by
  refine ⟨?_, ?_, ?_, ?_, ?_, ?_, ?_⟩
  · intro h1; simp [check_url_status, hg, hn, hw, hp, h1]
  · intro h1 h2; simp [check_url_status, hg, hn, hw, hp, h1, h2]
  · intro h1 h2 h3
    simp only [String.toList] at h3
    simp [check_url_status, hg, hn, hw, hp, h1, h2, h3]
  · intro h1 h2 h3 h4
    simp only [String.toList] at h3 h4
    simp [check_url_status, hg, hn, hw, hp, h1, h2, h3, h4]
  · intro hm w ws hf
    simp only [noMarkers, Bool.and_eq_true, Bool.not_eq_true'] at hm
    obtain ⟨⟨⟨h1, h2⟩, h3⟩, h4⟩ := hm
    simp only [String.toList] at h3 h4
    simp [check_url_status, hg, hn, hw, hp, h1, h2, h3, h4, hf]
  · intro hm hf
    simp only [noMarkers, Bool.and_eq_true, Bool.not_eq_true'] at hm
    obtain ⟨⟨⟨h1, h2⟩, h3⟩, h4⟩ := hm
    simp only [String.toList] at h3 h4
    simp [check_url_status, hg, hn, hw, hp, h1, h2, h3, h4, hf]
  · intro h
    have h1 := removed_marker_survives_lower src h
    simp [check_url_status, hg, hn, hw, hp, h1]

/-- C2 witness: the ordered-check theorem applied at a concrete environment,
exercising the removed-marker case and the no-marker default-`Live` case. -/
theorem c2_witness :
    (check_url_status
        { getDriver := .ok 0, navigate := .ok (), waitBody := .ok (),
          pageSource := .ok "some page: video unavailable.", findWarnings := .ok [],
          now := "t" } "u").status = "Removed" ∧
    check_url_status
        { getDriver := .ok 0, navigate := .ok (), waitBody := .ok (),
          pageSource := .ok "all fine here", findWarnings := .ok [], now := "t" }
        "u" =
      { url := "u", platform := "youtube", timestamp := "t",
        status := "Live", info := "Video available", error_message := "" } := by
  constructor
  · exact (c2_ordered_checks
      { getDriver := .ok 0, navigate := .ok (), waitBody := .ok (),
        pageSource := .ok "some page: video unavailable.", findWarnings := .ok [],
        now := "t" } "u" "some page: video unavailable." 0 rfl rfl rfl rfl).2.2.2.2.2.2
      (by decide)
  · exact (c2_ordered_checks
      { getDriver := .ok 0, navigate := .ok (), waitBody := .ok (),
        pageSource := .ok "all fine here", findWarnings := .ok [], now := "t" }
      "u" "all fine here" 0 rfl rfl rfl rfl).2.2.2.2.2.1 (by decide) rfl

/-! ## The WebDriver session pool (src/core/driver_manager.py, `WebDriverPool`)

A driver is modelled as an identity plus its browser state (cookies, local
and session storage). The pool keeps a FIFO queue `available` of driver
objects and the membership list `allIds` (`self.all_drivers`; Python
membership there compares object identity, modelled by the id). -/

structure DriverState where
  id : Nat
  cookies : List (String × String)
  localStore : List (String × String)
  sessionStore : List (String × String)
deriving DecidableEq

structure PoolState where
  poolSize : Nat
  available : List DriverState
  allIds : List Nat
deriving DecidableEq

/-- Embedding of the creation loop of `WebDriverPool._initialize_pool`:
`for i in range(pool_size)`, attempt to create a driver; on the first
failure the exception is caught, a message is printed and the loop `break`s,
so the pool simply keeps the drivers created so far. `create i` is the
outcome of the `webdriver.Chrome(...)` call for index `i`. Returns the ids
appended to `all_drivers` (and put into `available_drivers`). -/
def init_loop (create : Nat → Except String Unit) : Nat → Nat → List Nat
  | _, 0 => []
  | i, n + 1 =>
    match create i with
    | .ok _ => i :: init_loop create (i + 1) n
    | .error _ => []

def init_pool (create : Nat → Except String Unit) (size : Nat) : List Nat :=
  init_loop create 0 size

/-- The pool state `WebDriverPool.__init__` leaves behind after
`_initialize_pool` ran. -/
def mkPool (size : Nat) (create : Nat → Except String Unit) : PoolState :=
  { poolSize := size,
    available := (init_pool create size).map (fun i => ⟨i, [], [], []⟩),
    allIds := init_pool create size }

/-- Embedding of `WebDriverPool.__init__`: `_setup_chromedriver` can raise
(re-wrapped); `_initialize_pool` never raises — partial creation is
absorbed by the `except ... break` inside the loop. -/
def webdriver_pool_new (setup : Except String Unit)
    (create : Nat → Except String Unit) (size : Nat) : Except String PoolState :=
  match setup with
  | .error e => .error ("Failed to install ChromeDriver: " ++ e)
  | .ok _ => .ok (mkPool size create)

/-- Embedding of `WebDriverPool.get_driver`: `Queue.get(timeout=...)`
returns the front element if one is available; with the queue empty the
call times out and the bare `except` re-raises
`Exception("No WebDriver available in pool (timeout)")`. No driver is ever
created here. -/
def get_driver (s : PoolState) : Except String (DriverState × PoolState) :=
  match s.available with
  | [] => .error "No WebDriver available in pool (timeout)"
  | d :: rest => .ok (d, { s with available := rest })

/-- The state-clearing block of `WebDriverPool.return_driver`: it runs
`delete_all_cookies`, then clears `localStorage`, then `sessionStorage`,
all inside one `try`; `steps` is how many of the three statements executed
before an exception (3 = all succeeded; the exception itself is swallowed
by `except: pass`). -/
def clearDriver (d : DriverState) (steps : Nat) : DriverState :=
  let d1 := if 1 ≤ steps then { d with cookies := [] } else d
  let d2 := if 2 ≤ steps then { d1 with localStore := [] } else d1
  if 3 ≤ steps then { d2 with sessionStore := [] } else d2

/-- Embedding of `WebDriverPool.return_driver`: only drivers that belong to
`all_drivers` are re-queued; the (best-effort) state clearing happens first,
then the driver is put at the back of the FIFO queue. -/
def return_driver (s : PoolState) (d : DriverState) (steps : Nat) : PoolState :=
  if d.id ∈ s.allIds then
    { s with available := s.available ++ [clearDriver d steps] }
  else s

/-- One worker-visible pool operation: an acquisition attempt, or the
return of a (possibly mutated) driver with a given clearing outcome. -/
inductive PoolOp where
  | acq : PoolOp
  | rel : DriverState → Nat → PoolOp
deriving DecidableEq

def poolStep (s : PoolState) (op : PoolOp) : PoolState :=
  match op with
  | .acq =>
    match get_driver s with
    | .error _ => s
    | .ok (_, s2) => s2
  | .rel d steps => return_driver s d steps

def runPool (s : PoolState) (ops : List PoolOp) : PoolState := ops.foldl poolStep s

theorem poolStep_allIds (s : PoolState) (op : PoolOp) : (poolStep s op).allIds = s.allIds := by
  cases op with
  | acq =>
    simp only [poolStep, get_driver]
    cases s.available <;> rfl
  | rel d steps =>
    simp only [poolStep, return_driver]
    split <;> rfl

theorem runPool_allIds (ops : List PoolOp) :
    ∀ s : PoolState, (runPool s ops).allIds = s.allIds := by
  induction ops with
  | nil => intro s; rfl
  | cons op rest ih =>
    intro s
    have h1 := poolStep_allIds s op
    have h2 := ih (poolStep s op)
    simp only [runPool, List.foldl_cons] at h2 ⊢
    rw [h2, h1]

theorem init_loop_length_le (create : Nat → Except String Unit) :
    ∀ (n i : Nat), (init_loop create i n).length ≤ n := by
  intro n
  induction n with
  | zero => intro i; simp [init_loop]
  | succ m ih =>
    intro i
    simp only [init_loop]
    cases create i with
    | ok _ => simpa using ih (i + 1)
    | error _ => simp

theorem init_loop_all_ok (create : Nat → Except String Unit) :
    ∀ (n i : Nat), (∀ j, j < n → create (i + j) = .ok ()) →
      init_loop create i n = List.range' i n := by
  intro n
  induction n with
  | zero => intro i _; rfl
  | succ m ih =>
    intro i h
    have h0 : create i = .ok () := by simpa using h 0 (Nat.succ_pos m)
    simp only [init_loop, h0, List.range']
    congr 1
    exact ih (i + 1) (fun j hj => by
      have := h (j + 1) (by omega)
      simpa [Nat.add_assoc, Nat.add_comm 1 j] using this)

theorem init_loop_failure (create : Nat → Except String Unit) :
    ∀ (n i k : Nat) (e : String), k < n →
      (∀ j, j < k → create (i + j) = .ok ()) → create (i + k) = .error e →
      init_loop create i n = List.range' i k := by
  intro n
  induction n with
  | zero => intro i k e hk; omega
  | succ m ih =>
    intro i k e hk hok hfail
    cases k with
    | zero =>
      simp only [Nat.add_zero] at hfail
      simp [init_loop, hfail, List.range']
    | succ k2 =>
      have h0 : create i = .ok () := by simpa using hok 0 (Nat.succ_pos k2)
      simp only [init_loop, h0, List.range']
      congr 1
      exact ih (i + 1) k2 e (by omega)
        (fun j hj => by
          have := hok (j + 1) (by omega)
          simpa [Nat.add_assoc, Nat.add_comm 1 j] using this)
        (by
          have : i + 1 + k2 = i + (k2 + 1) := by omega
          rw [this]; exact hfail)

/-- Embedding of `BatchProcessor._process_batch` on a run with no
cancellation: every submitted URL index produces exactly one result via the
shared scraper, and the coordinator collects the result dictionaries in
completion order, modelled by the index list `order` (a permutation of the
submitted indices). `envs i` is the environment of the worker invocation for
the i-th URL. -/
def process_batch (urls : List String) (envs : Nat → ScrapeEnv)
    (order : List Nat) : List ScrapingResult :=
  order.map (fun i => check_url_status (envs i) (urls.getD i ""))

/-- A creation function failing from the second driver on, for the partial
pool-initialization scenario. -/
def create01 : Nat → Except String Unit :=
  fun i => if i = 0 then .ok () else .error "chrome failed to start"

def createAllOk : Nat → Except String Unit := fun _ => .ok ()

/-- C3 counterexample: with `pool_size = 2` and the second creation failing,
`WebDriverPool.__init__` returns normally (no exception aborts the run) and
the pool holds a single driver — partial session creation is not a fatal
condition in the code, contradicting the claim that the run aborts. -/
theorem c3_truncated_init_cex :
    webdriver_pool_new (.ok ()) create01 2 = .ok (mkPool 2 create01) ∧
    (mkPool 2 create01).allIds = [0] ∧
    (mkPool 2 create01).allIds.length = 1 ∧
    (mkPool 2 create01).allIds.length ≠ 2 ∧
    create01 1 = .error "chrome failed to start" := by
  refine ⟨rfl, by decide, by decide, by decide, rfl⟩

/-- C3 (amended): pool initialization attempts to create `pool_size`
sessions synchronously; when every creation succeeds it creates exactly
`pool_size` of them, it never creates more, and on the first creation
failure it stops, keeps the `k` sessions created so far and returns the
pool without raising — partial creation is reported only by a log message
and is not fatal to the run. -/
theorem c3_truncated_init_tolerated (create : Nat → Except String Unit)
    (size k : Nat) (e : String) :
    ((∀ i, i < size → create i = .ok ()) → (init_pool create size).length = size) ∧
    ((init_pool create size).length ≤ size) ∧
    (k < size → (∀ i, i < k → create i = .ok ()) → create k = .error e →
      init_pool create size = List.range k ∧
      webdriver_pool_new (.ok ()) create size = .ok (mkPool size create) ∧
      (mkPool size create).allIds.length = k) := by
  refine ⟨?_, ?_, ?_⟩
  · intro h
    have := init_loop_all_ok create size 0 (fun j hj => by simpa using h j hj)
    simp [init_pool, this]
  · exact init_loop_length_le create size 0
  · intro hk hok hfail
    have hrange := init_loop_failure create size 0 k e hk
      (fun j hj => by simpa using hok j hj) (by simpa using hfail)
    have hpool : init_pool create size = List.range k := by
      rw [init_pool, hrange, List.range_eq_range']
    refine ⟨hpool, rfl, ?_⟩
    simp [mkPool, hpool]

/-- C3 witness: the amended theorem applied at a fully successful creation
function and at the partially failing `create01`. -/
theorem c3_witness :
    (init_pool createAllOk 3).length = 3 ∧
    init_pool create01 2 = List.range 1 ∧
    webdriver_pool_new (.ok ()) create01 2 = .ok (mkPool 2 create01) ∧
    (mkPool 2 create01).allIds.length = 1 := by
  have h1 := (c3_truncated_init_tolerated createAllOk 3 0 "").1 (fun i _ => rfl)
  have h2 := (c3_truncated_init_tolerated create01 2 1 "chrome failed to start").2.2
    (by omega) (fun i hi => by
      have hiz : i = 0 := by omega
      rw [hiz]; rfl) rfl
  exact ⟨h1, h2.1, h2.2.1, h2.2.2⟩

/-- C4 (confirmed): an acquisition attempt on an empty pool fails with the
pool-exhausted message instead of creating a session; a successful
acquisition only hands out a driver already in the available queue; no
sequence of acquire/release operations ever changes the driver membership
list, which stays bounded by `pool_size`; and a pool timeout inside the
classifier yields a single `Error` result for that URL while the batch
still produces one result per scheduled URL. -/
theorem c4_pool_timeout_behavior (s : PoolState) (ops : List PoolOp)
    (env : ScrapeEnv) (url m : String) (urls : List String)
    (envs : Nat → ScrapeEnv) (order : List Nat)
    (create : Nat → Except String Unit) (size : Nat) :
    (s.available = [] →
      get_driver s = .error "No WebDriver available in pool (timeout)") ∧
    (∀ d s2, get_driver s = .ok (d, s2) →
      d ∈ s.available ∧ s2.allIds = s.allIds ∧
      s2.available.length + 1 = s.available.length) ∧
    ((runPool s ops).allIds = s.allIds) ∧
    ((runPool (mkPool size create) ops).allIds.length ≤ size) ∧
    (env.getDriver = .error m →
      check_url_status env url = errRes url env.now m) ∧
    ((process_batch urls envs order).length = order.length) := by
  refine ⟨?_, ?_, ?_, ?_, ?_, ?_⟩
  · intro h; simp [get_driver, h]
  · intro d s2 h
    unfold get_driver at h
    cases hav : s.available with
    | nil => rw [hav] at h; cases h
    | cons d0 rest =>
      rw [hav] at h
      cases h
      refine ⟨List.mem_cons_self _ _, rfl, ?_⟩
      simp
  · exact runPool_allIds ops s
  · rw [runPool_allIds]
    simpa [mkPool, init_pool] using init_loop_length_le create size 0
  · intro h; simp [check_url_status, h, errRes]
  · simp [process_batch]

/-- C4 witness: the theorem applied at a concrete exhausted pool, a concrete
pool with one available driver, and a concrete timed-out classifier call. -/
theorem c4_witness :
    get_driver ⟨2, [], [0, 1]⟩ = .error "No WebDriver available in pool (timeout)" ∧
    (⟨0, [], [], []⟩ : DriverState) ∈ ([⟨0, [], [], []⟩] : List DriverState) ∧
    (runPool (mkPool 2 createAllOk) [.acq, .rel ⟨0, [("a", "b")], [], []⟩ 3]).allIds.length ≤ 2 ∧
    check_url_status
        { getDriver := .error "No WebDriver available in pool (timeout)",
          navigate := .ok (), waitBody := .ok (), pageSource := .ok "",
          findWarnings := .ok [], now := "t" } "u" =
      errRes "u" "t" "No WebDriver available in pool (timeout)" := by
  refine ⟨?_, ?_, ?_, ?_⟩
  · exact (c4_pool_timeout_behavior ⟨2, [], [0, 1]⟩ [] envProbeFail "u" "m" [] (fun _ => envProbeFail) [] createAllOk 0).1 rfl
  · have h := (c4_pool_timeout_behavior ⟨2, [⟨0, [], [], []⟩], [0, 1]⟩ []
      envProbeFail "u" "m" [] (fun _ => envProbeFail) [] createAllOk 0).2.1
      ⟨0, [], [], []⟩ ⟨2, [], [0, 1]⟩ rfl
    exact h.1
  · exact (c4_pool_timeout_behavior ⟨2, [], [0, 1]⟩
      [.acq, .rel ⟨0, [("a", "b")], [], []⟩ 3] envProbeFail "u" "m" []
      (fun _ => envProbeFail) [] createAllOk 2).2.2.2.1
  · exact (c4_pool_timeout_behavior ⟨2, [], [0, 1]⟩ []
      { getDriver := .error "No WebDriver available in pool (timeout)",
        navigate := .ok (), waitBody := .ok (), pageSource := .ok "",
        findWarnings := .ok [], now := "t" } "u"
      "No WebDriver available in pool (timeout)" [] (fun _ => envProbeFail) []
      createAllOk 0).2.2.2.2.1 rfl

/-- A driver carrying state left over from checking a URL. -/
def dirtyDriver : DriverState :=
  { id := 7, cookies := [("sid", "abc")],
    localStore := [("key", "val")], sessionStore := [("sk", "sv")] }

def poolOne : PoolState := { poolSize := 1, available := [], allIds := [7] }

/-- C5 counterexample: when the clearing block raises immediately
(zero statements executed, exception swallowed by `except: pass`),
`return_driver` still puts the driver back into the available set with its
cookies and storage intact, so a session can re-enter the pool carrying
state — the claimed unconditional invariant fails. -/
theorem c5_state_bleed_cex :
    (return_driver poolOne dirtyDriver 0).available = [dirtyDriver] ∧
    dirtyDriver.cookies ≠ [] ∧ dirtyDriver.localStore ≠ [] ∧
    dirtyDriver.sessionStore ≠ [] := by
  refine ⟨by decide, by decide, by decide, by decide⟩

/-- C5 (amended): when the clearing calls succeed (all three statements
execute), the driver re-enters the available queue with no cookies and
empty local/session storage, so the next use starts from a clean slate;
in general every driver in the available set after a release either was
already there or re-entered fully cleared. If the clearing raises, the
exception is suppressed and the session re-enters with its state intact. -/
theorem c5_clear_on_release (s : PoolState) (d : DriverState) :
    (d.id ∈ s.allIds →
      (return_driver s d 3).available = s.available ++ [clearDriver d 3]) ∧
    (clearDriver d 3).cookies = [] ∧
    (clearDriver d 3).localStore = [] ∧
    (clearDriver d 3).sessionStore = [] ∧
    (∀ d2, d2 ∈ (return_driver s d 3).available →
      d2 ∈ s.available ∨
      (d2.cookies = [] ∧ d2.localStore = [] ∧ d2.sessionStore = [])) := by
  have hclear : clearDriver d 3 =
      { d with cookies := [], localStore := [], sessionStore := [] } := by
    simp [clearDriver]
  refine ⟨?_, by rw [hclear], by rw [hclear], by rw [hclear], ?_⟩
  · intro hmem; simp [return_driver, hmem]
  · intro d2 hd2
    unfold return_driver at hd2
    split at hd2
    · simp only [List.mem_append, List.mem_singleton] at hd2
      cases hd2 with
      | inl h => exact Or.inl h
      | inr h => exact Or.inr (by rw [h, hclear]; exact ⟨rfl, rfl, rfl⟩)
    · exact Or.inl hd2

/-- C5 witness: the amended theorem applied to the dirty driver released
into `poolOne` with all clearing statements succeeding. -/
theorem c5_witness :
    (return_driver poolOne dirtyDriver 3).available = [clearDriver dirtyDriver 3] ∧
    (clearDriver dirtyDriver 3).cookies = [] ∧
    (clearDriver dirtyDriver 3).localStore = [] ∧
    (clearDriver dirtyDriver 3).sessionStore = [] := by
  have h := c5_clear_on_release poolOne dirtyDriver
  exact ⟨h.1 (by decide), h.2.1, h.2.2.1, h.2.2.2.1⟩

/-! ## The tabular model (src/utils/csv_handler.py, `CSVHandler`)

A `Df` is a pandas DataFrame: an ordered list of column names and rows of
cells aligned with them; a `none` cell is NaN. Python `str(cell)` applied
to a NaN produces the string `nan`, modelled by `pyStr`. -/

structure Df where
  cols : List String
  rows : List (List (Option String))
deriving DecidableEq

/-- Index of the first occurrence of a column name (pandas column lookup). -/
def colIdx (cols : List String) (c : String) : Option Nat :=
  match cols with
  | [] => none
  | c0 :: rest => if c0 = c then some 0 else (colIdx rest c).map (· + 1)

def getCell (row : List (Option String)) (i : Nat) : Option String :=
  (row.get? i).join

/-- Python `str(value)` on a cell: NaN prints as `nan`. -/
def pyStr : Option String → String
  | none => "nan"
  | some s => s

def resultColumns : List String :=
  ["status", "platform", "info", "timestamp", "error_message"]

/-- One step of `CSVHandler.add_result_columns`: the pandas column assignment appends the
column (filled with empty strings) only when it is not already present. -/
def addCol (df : Df) (c : String) : Df :=
  if c ∈ df.cols then df
  else { cols := df.cols ++ [c], rows := df.rows.map (· ++ [some ""]) }

def add_result_columns (df : Df) : Df := resultColumns.foldl addCol df

/-- The result dictionary `ScrapingResult.to_dict` in its Python insertion
order (the order the per-row update writes the fields). -/
def rdPairs (r : ScrapingResult) : List (String × String) :=
  [("url", r.url), ("status", r.status), ("info", r.info),
   ("timestamp", r.timestamp), ("error_message", r.error_message),
   ("platform", r.platform)]

/-- Python dict built from a result list, keyed by URL: the last occurrence
of a URL wins (a Python dict comprehension keyed by the url field). -/
def lookupLast (results : List ScrapingResult) (u : String) : Option ScrapingResult :=
  (results.filter (fun r => r.url == u)).getLast?

/-- The inner loop of `CSVHandler.update_results` for one matched row:
`for key, value in result.items(): if key in df.columns: df.at[index, key] = value`. -/
def applyResult (cols : List String) (r : ScrapingResult)
    (row : List (Option String)) : List (Option String) :=
  (rdPairs r).foldl
    (fun acc kv =>
      match colIdx cols kv.1 with
      | none => acc
      | some j => acc.set j (some kv.2))
    row

/-- The per-row body of `CSVHandler.update_results`: read the URL cell of
the row as a Python string, look it up in the URL-to-result dict, and if found
write the result fields into the existing columns. -/
def updRow (cols : List String) (results : List ScrapingResult) (ui : Nat)
    (row : List (Option String)) : List (Option String) :=
  match lookupLast results (pyStr (getCell row ui)) with
  | none => row
  | some r => applyResult cols r row

/-- Embedding of `CSVHandler.update_results`. In the pipeline the URL column
always exists at this point (it was validated and URLs were extracted from
it), so the `none` branch of the column lookup is unreachable; it is mapped
to the identity. -/
def update_results (df : Df) (results : List ScrapingResult)
    (url_column : String) : Df :=
  match colIdx df.cols url_column with
  | none => df
  | some ui => { df with rows := df.rows.map (updRow df.cols results ui) }

/-- Embedding of `CSVHandler.get_urls_from_column`:
`df[url_column].dropna().astype(str).tolist()`, raising when the column is
missing or no URL remains. -/
def get_urls_from_column (df : Df) (url_column : String) : Except String (List String) :=
  match colIdx df.cols url_column with
  | none => .error ("URL column \x27" ++ url_column ++ "\x27 not found in CSV")
  | some i =>
    let urls := df.rows.filterMap (fun r => getCell r i)
    if urls.isEmpty then .error ("No URLs found in column \x27" ++ url_column ++ "\x27")
    else .ok urls

/-- Embedding of `CSVHandler.validate_column_mapping`: every mapping entry
with a non-empty column name must name an existing column. -/
def missingCols (df : Df) (mapping : List (String × String)) : List String :=
  mapping.filterMap (fun kv =>
    if kv.2 ≠ "" ∧ kv.2 ∉ df.cols
    then some (kv.1 ++ " column \x27" ++ kv.2 ++ "\x27")
    else none)

def validate_column_mapping (df : Df) (mapping : List (String × String)) :
    Bool × String :=
  if (missingCols df mapping).isEmpty then (true, "")
  else (false, "Missing columns: " ++ String.intercalate ", " (missingCols df mapping))

/-- Embedding of `CSVHandler.load_csv`: a missing file raises
`FileNotFoundError`; any failure inside the `try` block (a parse error, or
the explicit empty-file check) is re-wrapped with a fixed leading text. -/
def load_csv (path : String) (fileExists : Bool) (parsed : Except String Df) :
    Except String Df :=
  if fileExists = false then .error ("CSV file not found: " ++ path)
  else
    match parsed with
    | .error e => .error ("Error loading CSV file: " ++ e)
    | .ok df =>
      if df.rows.isEmpty then .error ("Error loading CSV file: CSV file is empty")
      else .ok df

/-- Python `dict.get(key, default)` over the column mapping. -/
def pyDictGet (m : List (String × String)) (k : String) : Option String :=
  ((m.filter (fun kv => kv.1 == k)).getLast?).map (·.2)

/-- The header row `DataFrame.to_csv` writes for a table: its columns in
order (`CSVHandler.save_csv` does `df.to_csv(output_path, index=False)`). -/
def save_csv_header (df : Df) : List String := df.cols

/-- The save step of `process_csv`: `if output_path: CSVHandler.save_csv`,
whose failures are re-wrapped with a fixed leading text. `none` means no output
path was given. -/
def saveStep : Option (Except String Unit) → Except String Unit
  | none => .ok ()
  | some (.ok _) => .ok ()
  | some (.error e) => .error ("Error saving CSV file: " ++ e)

/-- The value count of `v` in the status column: how many rows carry `v`
(NaN cells match no value). -/
def countStatus (df : Df) (v : String) : Nat :=
  match colIdx df.cols "status" with
  | none => 0
  | some i => df.rows.countP (fun r => getCell r i == some v)

/-! ## The batch coordinator (src/core/batch_processor.py) -/

/-- The result container `ProcessingResult.__init__` with its initial
values: `success=False`, no dataframe, empty error, zero counts. -/
structure ProcessingResult where
  success : Bool
  dataframe : Option Df
  error_message : String
  processed_count : Nat
  statsLive : Nat
  statsRemoved : Nat
  statsRestricted : Nat
  statsErrors : Nat
deriving DecidableEq

def emptyResult : ProcessingResult :=
  { success := false, dataframe := none, error_message := "",
    processed_count := 0, statsLive := 0, statsRemoved := 0,
    statsRestricted := 0, statsErrors := 0 }

/-- Embedding of `BatchProcessor.process_csv`. The steps mirror the Python
method in order: load the CSV, validate the mapping, add the result
columns, check the platform (only `youtube` has a scraper), extract the
URLs, run the batch, return early with an error result if the cancel flag
was set during the run, join the results back, optionally save, and compute
the final stats from the status column of the dataframe. Any exception along the
way is caught and put into `error_message` of the still-initial result. -/
def process_csv (path : String) (fileExists : Bool) (parsed : Except String Df)
    (platform : String) (mapping : List (String × String))
    (envs : Nat → ScrapeEnv) (order : List Nat)
    (cancelDuringRun : Bool) (saveOutcome : Option (Except String Unit)) :
    ProcessingResult :=
  match load_csv path fileExists parsed with
  | .error e => { emptyResult with error_message := e }
  | .ok df0 =>
    let v := validate_column_mapping df0 mapping
    if v.1 = false then { emptyResult with error_message := v.2 }
    else
      let df1 := add_result_columns df0
      if platform = "youtube" then
        let url_column := (pyDictGet mapping "post").getD ""
        match get_urls_from_column df1 url_column with
        | .error e => { emptyResult with error_message := e }
        | .ok urls =>
          if cancelDuringRun then
            { emptyResult with error_message := "Processing was cancelled" }
          else
            let results := process_batch urls envs order
            let df2 := update_results df1 results url_column
            match saveStep saveOutcome with
            | .error e => { emptyResult with error_message := e }
            | .ok _ =>
              { success := true, dataframe := some df2, error_message := "",
                processed_count := results.length,
                statsLive := countStatus df2 "Live",
                statsRemoved := countStatus df2 "Removed"
                  + countStatus df2 "Age-restricted"
                  + countStatus df2 "Geo-blocked"
                  + countStatus df2 "Private",
                statsRestricted := countStatus df2 "Restricted",
                statsErrors := countStatus df2 "Error" }
      else { emptyResult with error_message := "Unsupported platform: " ++ platform }

theorem append_eq_empty_left (s t : String) (h : s ++ t = "") : s = "" := by
  have hd : s.data ++ t.data = ([] : List Char) := congrArg String.data h
  have hs : s.data = [] := (List.append_eq_nil.mp hd).1
  cases s
  simp_all

theorem load_csv_error_ne (path : String) (fe : Bool) (parsed : Except String Df)
    (e : String) (h : load_csv path fe parsed = .error e) : e ≠ "" := by
  unfold load_csv at h
  intro he
  subst he
  split at h
  · injection h with h2
    have := append_eq_empty_left "CSV file not found: " path h2
    simp at this
  · split at h
    · injection h with h2
      have := append_eq_empty_left "Error loading CSV file: " _ h2
      simp at this
    · split at h
      · injection h with h2
        exact absurd h2 (by decide)
      · cases h

theorem validate_false_ne (df : Df) (mapping : List (String × String))
    (h : (validate_column_mapping df mapping).1 = false) :
    (validate_column_mapping df mapping).2 ≠ "" := by
  unfold validate_column_mapping at h ⊢
  by_cases hm : (missingCols df mapping).isEmpty = true
  · rw [if_pos hm] at h; simp at h
  · rw [if_neg hm] at h ⊢
    intro he
    have := append_eq_empty_left "Missing columns: " _ he
    simp at this

theorem get_urls_error_ne (df : Df) (c e : String)
    (h : get_urls_from_column df c = .error e) : e ≠ "" := by
  unfold get_urls_from_column at h
  intro he
  subst he
  split at h
  · injection h with h2
    have h3 := append_eq_empty_left _ _ h2
    have h4 := append_eq_empty_left "URL column \x27" c h3
    simp at h4
  · dsimp only at h
    split at h
    · injection h with h2
      have h3 := append_eq_empty_left _ _ h2
      have h4 := append_eq_empty_left "No URLs found in column \x27" c h3
      simp at h4
    · cases h

theorem saveStep_error_ne (so : Option (Except String Unit)) (e : String)
    (h : saveStep so = .error e) : e ≠ "" := by
  intro he
  subst he
  cases so with
  | none => cases h
  | some x =>
    cases x with
    | ok _ => cases h
    | error e2 =>
      injection h with h2
      have := append_eq_empty_left "Error saving CSV file: " e2 h2
      simp at this

/-- C10 (confirmed): every `process_csv` return with `success = false`
(invalid mapping, unsupported platform, cancellation, or any caught
exception) is otherwise the initial `ProcessingResult`: no dataframe, zero
processed count, all four stats buckets zero, and a non-empty error
message. -/
theorem c10_error_result_initial (path : String) (fileExists : Bool)
    (parsed : Except String Df) (platform : String)
    (mapping : List (String × String)) (envs : Nat → ScrapeEnv)
    (order : List Nat) (cancelDuringRun : Bool)
    (saveOutcome : Option (Except String Unit)) :
    (process_csv path fileExists parsed platform mapping envs order
        cancelDuringRun saveOutcome).success = false →
    (process_csv path fileExists parsed platform mapping envs order
        cancelDuringRun saveOutcome).dataframe = none ∧
    (process_csv path fileExists parsed platform mapping envs order
        cancelDuringRun saveOutcome).error_message ≠ "" ∧
    (process_csv path fileExists parsed platform mapping envs order
        cancelDuringRun saveOutcome).processed_count = 0 ∧
    (process_csv path fileExists parsed platform mapping envs order
        cancelDuringRun saveOutcome).statsLive = 0 ∧
    (process_csv path fileExists parsed platform mapping envs order
        cancelDuringRun saveOutcome).statsRemoved = 0 ∧
    (process_csv path fileExists parsed platform mapping envs order
        cancelDuringRun saveOutcome).statsRestricted = 0 ∧
    (process_csv path fileExists parsed platform mapping envs order
        cancelDuringRun saveOutcome).statsErrors = 0 := by
  unfold process_csv
  cases hload : load_csv path fileExists parsed with
  | error e =>
    intro _
    exact ⟨rfl, load_csv_error_ne path fileExists parsed e hload, rfl, rfl, rfl, rfl, rfl⟩
  | ok df0 =>
    dsimp only
    by_cases hv : (validate_column_mapping df0 mapping).1 = false
    · rw [if_pos hv]
      intro _
      exact ⟨rfl, validate_false_ne df0 mapping hv, rfl, rfl, rfl, rfl, rfl⟩
    · rw [if_neg hv]
      by_cases hp : platform = "youtube"
      · rw [if_pos hp]
        cases hurls : get_urls_from_column (add_result_columns df0)
            ((pyDictGet mapping "post").getD "") with
        | error e =>
          intro _
          exact ⟨rfl, get_urls_error_ne _ _ e hurls, rfl, rfl, rfl, rfl, rfl⟩
        | ok urls =>
          dsimp only
          by_cases hc : cancelDuringRun = true
          · rw [if_pos hc]
            intro _
            exact ⟨rfl, by decide, rfl, rfl, rfl, rfl, rfl⟩
          · rw [if_neg hc]
            cases hsave : saveStep saveOutcome with
            | error e =>
              intro _
              exact ⟨rfl, saveStep_error_ne saveOutcome e hsave, rfl, rfl, rfl, rfl, rfl⟩
            | ok _ =>
              intro hfalse
              simp at hfalse
      · rw [if_neg hp]
        intro _
        refine ⟨rfl, ?_, rfl, rfl, rfl, rfl, rfl⟩
        intro he
        have := append_eq_empty_left "Unsupported platform: " platform he
        simp at this

/-- C10 witness: the theorem applied at a concrete run whose input file does
not exist. -/
theorem c10_witness :
    (process_csv "in.csv" false (.error "x") "youtube" [("post", "link")]
        (fun _ => envProbeFail) [] false none).dataframe = none ∧
    (process_csv "in.csv" false (.error "x") "youtube" [("post", "link")]
        (fun _ => envProbeFail) [] false none).error_message ≠ "" ∧
    (process_csv "in.csv" false (.error "x") "youtube" [("post", "link")]
        (fun _ => envProbeFail) [] false none).processed_count = 0 ∧
    (process_csv "in.csv" false (.error "x") "youtube" [("post", "link")]
        (fun _ => envProbeFail) [] false none).statsLive = 0 ∧
    (process_csv "in.csv" false (.error "x") "youtube" [("post", "link")]
        (fun _ => envProbeFail) [] false none).statsRemoved = 0 ∧
    (process_csv "in.csv" false (.error "x") "youtube" [("post", "link")]
        (fun _ => envProbeFail) [] false none).statsRestricted = 0 ∧
    (process_csv "in.csv" false (.error "x") "youtube" [("post", "link")]
        (fun _ => envProbeFail) [] false none).statsErrors = 0 :=
  c10_error_result_initial "in.csv" false (.error "x") "youtube" [("post", "link")]
    (fun _ => envProbeFail) [] false none (by decide)

/-- The padding `add_result_columns` appends to every row of a fresh input. -/
def pad5 : List (Option String) := [some "", some "", some "", some "", some ""]

theorem add_result_columns_of_fresh (df0 : Df)
    (hfresh : ∀ c ∈ resultColumns, c ∉ df0.cols) :
    add_result_columns df0 =
      { cols := df0.cols ++ resultColumns,
        rows := df0.rows.map (fun r => r ++ pad5) } := by
  have h1 : "status" ∉ df0.cols := hfresh "status" (by simp [resultColumns])
  have h2 : "platform" ∉ df0.cols := hfresh "platform" (by simp [resultColumns])
  have h3 : "info" ∉ df0.cols := hfresh "info" (by simp [resultColumns])
  have h4 : "timestamp" ∉ df0.cols := hfresh "timestamp" (by simp [resultColumns])
  have h5 : "error_message" ∉ df0.cols := hfresh "error_message" (by simp [resultColumns])
  have m1 : ¬ ("status" ∈ df0.cols) := h1
  have m2 : ¬ ("platform" ∈ df0.cols ++ ["status"]) := by
    simp only [List.mem_append, List.mem_singleton]
    push_neg
    exact ⟨h2, by decide⟩
  have m3 : ¬ ("info" ∈ (df0.cols ++ ["status"]) ++ ["platform"]) := by
    simp only [List.mem_append, List.mem_singleton]
    push_neg
    exact ⟨⟨h3, by decide⟩, by decide⟩
  have m4 : ¬ ("timestamp" ∈ ((df0.cols ++ ["status"]) ++ ["platform"]) ++ ["info"]) := by
    simp only [List.mem_append, List.mem_singleton]
    push_neg
    exact ⟨⟨⟨h4, by decide⟩, by decide⟩, by decide⟩
  have m5 : ¬ ("error_message" ∈
      (((df0.cols ++ ["status"]) ++ ["platform"]) ++ ["info"]) ++ ["timestamp"]) := by
    simp only [List.mem_append, List.mem_singleton]
    push_neg
    exact ⟨⟨⟨⟨h5, by decide⟩, by decide⟩, by decide⟩, by decide⟩
  have e1 : addCol df0 "status" =
      { cols := df0.cols ++ ["status"],
        rows := df0.rows.map (fun r => r ++ [some ""]) } := by
    unfold addCol
    rw [if_neg m1]
  have e2 : addCol
      ({ cols := df0.cols ++ ["status"],
         rows := df0.rows.map (fun r => r ++ [some ""]) } : Df) "platform" =
      { cols := (df0.cols ++ ["status"]) ++ ["platform"],
        rows := (df0.rows.map (fun r => r ++ [some ""])).map (fun r => r ++ [some ""]) } := by
    unfold addCol
    dsimp only
    rw [if_neg m2]
  have e3 : addCol
      ({ cols := (df0.cols ++ ["status"]) ++ ["platform"],
         rows := (df0.rows.map (fun r => r ++ [some ""])).map
           (fun r => r ++ [some ""]) } : Df) "info" =
      { cols := ((df0.cols ++ ["status"]) ++ ["platform"]) ++ ["info"],
        rows := ((df0.rows.map (fun r => r ++ [some ""])).map
          (fun r => r ++ [some ""])).map (fun r => r ++ [some ""]) } := by
    unfold addCol
    dsimp only
    rw [if_neg m3]
  have e4 : addCol
      ({ cols := ((df0.cols ++ ["status"]) ++ ["platform"]) ++ ["info"],
         rows := ((df0.rows.map (fun r => r ++ [some ""])).map
           (fun r => r ++ [some ""])).map (fun r => r ++ [some ""]) } : Df)
      "timestamp" =
      { cols := (((df0.cols ++ ["status"]) ++ ["platform"]) ++ ["info"]) ++ ["timestamp"],
        rows := (((df0.rows.map (fun r => r ++ [some ""])).map
          (fun r => r ++ [some ""])).map (fun r => r ++ [some ""])).map
          (fun r => r ++ [some ""]) } := by
    unfold addCol
    dsimp only
    rw [if_neg m4]
  have e5 : addCol
      ({ cols := (((df0.cols ++ ["status"]) ++ ["platform"]) ++ ["info"]) ++ ["timestamp"],
         rows := (((df0.rows.map (fun r => r ++ [some ""])).map
           (fun r => r ++ [some ""])).map (fun r => r ++ [some ""])).map
           (fun r => r ++ [some ""]) } : Df) "error_message" =
      { cols := ((((df0.cols ++ ["status"]) ++ ["platform"]) ++ ["info"])
          ++ ["timestamp"]) ++ ["error_message"],
        rows := ((((df0.rows.map (fun r => r ++ [some ""])).map
          (fun r => r ++ [some ""])).map (fun r => r ++ [some ""])).map
          (fun r => r ++ [some ""])).map (fun r => r ++ [some ""]) } := by
    unfold addCol
    dsimp only
    rw [if_neg m5]
  show addCol (addCol (addCol (addCol (addCol df0 "status") "platform") "info")
      "timestamp") "error_message" = _
  rw [e1, e2, e3, e4, e5]
  refine congrArg₂ Df.mk ?_ ?_
  · simp [resultColumns, List.append_assoc]
  · simp only [List.map_map]
    apply List.map_congr_left
    intro r _
    simp [pad5, Function.comp, List.append_assoc]

theorem update_results_cols (df : Df) (results : List ScrapingResult) (c : String) :
    (update_results df results c).cols = df.cols := by
  unfold update_results
  split <;> rfl

/-- An environment in which every step succeeds and the page is clean. -/
def envLive : ScrapeEnv :=
  { getDriver := .ok 0, navigate := .ok (), waitBody := .ok (),
    pageSource := .ok "", findWarnings := .ok [], now := "t" }

/-- C8 (amended): when the cancellation flag is set during the run,
`process_csv` abandons the partial batch results: it returns an
unsuccessful `ProcessingResult` with the fixed message
`Processing was cancelled`, no dataframe and `processed_count = 0`
(trivially at most the number of input URLs); no table with unprocessed
rows is produced at all. -/
theorem c8_cancel_discards_table (path : String) (fileExists : Bool)
    (parsed : Except String Df) (mapping : List (String × String))
    (envs : Nat → ScrapeEnv) (order : List Nat)
    (saveOutcome : Option (Except String Unit)) (df0 : Df) (urls : List String)
    (hload : load_csv path fileExists parsed = .ok df0)
    (hvalid : (validate_column_mapping df0 mapping).1 = true)
    (hurls : get_urls_from_column (add_result_columns df0)
      ((pyDictGet mapping "post").getD "") = .ok urls) :
    process_csv path fileExists parsed "youtube" mapping envs order true saveOutcome =
      { emptyResult with error_message := "Processing was cancelled" } ∧
    (process_csv path fileExists parsed "youtube" mapping envs order true
        saveOutcome).processed_count ≤ urls.length := by
  have hbranch : process_csv path fileExists parsed "youtube" mapping envs order
      true saveOutcome =
      { emptyResult with error_message := "Processing was cancelled" } := by
    unfold process_csv
    rw [hload]
    dsimp only
    rw [if_neg (by rw [hvalid]; simp)]
    rw [if_pos rfl]
    rw [hurls]
    dsimp only
    rw [if_pos rfl]
  exact ⟨hbranch, by rw [hbranch]; exact Nat.zero_le _⟩

/-- C8 counterexample: a concrete cancelled run returns no result table at
all (`dataframe = none`, `success = false`), contrary to the claim that a
table is still produced with unprocessed URLs merely absent from it. -/
theorem c8_cancel_cex :
    (process_csv "in.csv" true (.ok ⟨["link"], [[some "u1"], [some "u2"]]⟩)
        "youtube" [("post", "link")] (fun _ => envLive) [0, 1] true
        none).dataframe = none ∧
    (process_csv "in.csv" true (.ok ⟨["link"], [[some "u1"], [some "u2"]]⟩)
        "youtube" [("post", "link")] (fun _ => envLive) [0, 1] true
        none).success = false ∧
    (process_csv "in.csv" true (.ok ⟨["link"], [[some "u1"], [some "u2"]]⟩)
        "youtube" [("post", "link")] (fun _ => envLive) [0, 1] true
        none).error_message = "Processing was cancelled" := by
  refine ⟨by decide, by decide, by decide⟩

/-- C8 witness: the amended theorem applied at the same concrete cancelled
run. -/
theorem c8_witness :
    process_csv "in.csv" true (.ok ⟨["link"], [[some "u1"], [some "u2"]]⟩)
        "youtube" [("post", "link")] (fun _ => envLive) [0, 1] true none =
      { emptyResult with error_message := "Processing was cancelled" } ∧
    (process_csv "in.csv" true (.ok ⟨["link"], [[some "u1"], [some "u2"]]⟩)
        "youtube" [("post", "link")] (fun _ => envLive) [0, 1] true
        none).processed_count ≤ 2 :=
  c8_cancel_discards_table "in.csv" true (.ok ⟨["link"], [[some "u1"], [some "u2"]]⟩)
    [("post", "link")] (fun _ => envLive) [0, 1] none
    ⟨["link"], [[some "u1"], [some "u2"]]⟩ ["u1", "u2"]
    (by decide) (by decide) (by decide)

/-- C9 (amended): the exported CSV header is the original caller columns
in their input order followed by the five result columns
`status, platform, info, timestamp, error_message` appended at the end; in
particular the URL-identifying column keeps its original position instead
of being moved to the front. -/
theorem c9_export_header_order (path : String) (fileExists : Bool)
    (parsed : Except String Df) (mapping : List (String × String))
    (envs : Nat → ScrapeEnv) (order : List Nat)
    (saveOutcome : Option (Except String Unit)) (df0 : Df)
    (urls : List String)
    (hfresh : ∀ c ∈ resultColumns, c ∉ df0.cols)
    (hload : load_csv path fileExists parsed = .ok df0)
    (hvalid : (validate_column_mapping df0 mapping).1 = true)
    (hurls : get_urls_from_column (add_result_columns df0)
      ((pyDictGet mapping "post").getD "") = .ok urls)
    (hsave : saveStep saveOutcome = .ok ()) :
    ∃ df2, (process_csv path fileExists parsed "youtube" mapping envs order
        false saveOutcome).dataframe = some df2 ∧
      save_csv_header df2 = df0.cols ++ resultColumns := by
  unfold process_csv
  rw [hload]
  dsimp only
  rw [if_neg (by rw [hvalid]; simp)]
  rw [if_pos rfl]
  rw [hurls]
  dsimp only
  rw [if_neg (by simp)]
  rw [hsave]
  refine ⟨_, rfl, ?_⟩
  rw [save_csv_header, update_results_cols]
  rw [add_result_columns_of_fresh df0 hfresh]

/-- C9 counterexample: a concrete completed run whose input columns are
`notes, link` (`link` being the URL column). The exported header keeps
`notes` first and appends the result columns at the end, so it does not
start with the URL column followed by `status` as the claim requires. -/
theorem c9_header_cex :
    (process_csv "in.csv" true (.ok ⟨["notes", "link"], [[some "a note", some "u1"]]⟩)
        "youtube" [("post", "link")] (fun _ => envLive) [0] false
        none).dataframe.map save_csv_header =
      some ["notes", "link", "status", "platform", "info", "timestamp",
            "error_message"] ∧
    (process_csv "in.csv" true (.ok ⟨["notes", "link"], [[some "a note", some "u1"]]⟩)
        "youtube" [("post", "link")] (fun _ => envLive) [0] false
        none).dataframe.map (fun d => d.cols.get? 0) ≠ some (some "link") ∧
    (process_csv "in.csv" true (.ok ⟨["notes", "link"], [[some "a note", some "u1"]]⟩)
        "youtube" [("post", "link")] (fun _ => envLive) [0] false
        none).dataframe.map (fun d => d.cols.get? 1) ≠ some (some "status") := by
  refine ⟨by decide, by decide, by decide⟩

/-- C9 witness: the amended theorem applied at the same concrete run. -/
theorem c9_witness :
    ∃ df2, (process_csv "in.csv" true
        (.ok ⟨["notes", "link"], [[some "a note", some "u1"]]⟩)
        "youtube" [("post", "link")] (fun _ => envLive) [0] false
        none).dataframe = some df2 ∧
      save_csv_header df2 = ["notes", "link"] ++ resultColumns :=
  c9_export_header_order "in.csv" true
    (.ok ⟨["notes", "link"], [[some "a note", some "u1"]]⟩)
    [("post", "link")] (fun _ => envLive) [0] none
    ⟨["notes", "link"], [[some "a note", some "u1"]]⟩ ["u1"]
    (by decide) (by decide) (by decide) (by decide) (by decide)

theorem colIdx_append_inl :
    ∀ (l l2 : List String) (c : String) (i : Nat),
      colIdx l c = some i → colIdx (l ++ l2) c = some i := by
  intro l
  induction l with
  | nil => intro l2 c i h; simp [colIdx] at h
  | cons c0 rest ih =>
    intro l2 c i h
    simp only [colIdx] at h
    simp only [List.cons_append, colIdx, List.append_eq]
    by_cases hc : c0 = c
    · rw [if_pos hc] at h ⊢; exact h
    · rw [if_neg hc] at h ⊢
      cases hrec : colIdx rest c with
      | none => rw [hrec] at h; cases h
      | some j =>
        rw [hrec] at h
        rw [ih l2 c j hrec]
        exact h

theorem colIdx_not_mem :
    ∀ (l : List String) (c : String), c ∉ l → colIdx l c = none := by
  intro l
  induction l with
  | nil => intro c _; rfl
  | cons c0 rest ih =>
    intro c h
    simp only [List.mem_cons, not_or] at h
    simp only [colIdx]
    rw [if_neg (fun hc => h.1 hc.symm), ih c h.2]
    rfl

theorem colIdx_append_right :
    ∀ (l l2 : List String) (c : String), c ∉ l →
      colIdx (l ++ l2) c = (colIdx l2 c).map (· + l.length) := by
  intro l
  induction l with
  | nil =>
    intro l2 c _
    simp only [List.nil_append, List.length_nil]
    cases colIdx l2 c <;> simp
  | cons c0 rest ih =>
    intro l2 c h
    simp only [List.mem_cons, not_or] at h
    simp only [List.cons_append, colIdx, List.append_eq]
    rw [if_neg (fun hc => h.1 hc.symm), ih l2 c h.2]
    cases colIdx l2 c with
    | none => rfl
    | some j =>
      show some (j + rest.length + 1) = some (j + (c0 :: rest).length)
      simp only [List.length_cons]
      congr 1

theorem colIdx_append_stable :
    ∀ (l l2 : List String) (c : String), c ∉ l2 →
      colIdx (l ++ l2) c = colIdx l c := by
  intro l
  induction l with
  | nil => intro l2 c h; simp [colIdx_not_mem l2 c h, colIdx]
  | cons c0 rest ih =>
    intro l2 c h
    simp only [List.cons_append, colIdx, List.append_eq]
    by_cases hc : c0 = c
    · rw [if_pos hc, if_pos hc]
    · rw [if_neg hc, if_neg hc, ih l2 c h]

theorem colIdx_lt :
    ∀ (l : List String) (c : String) (i : Nat), colIdx l c = some i → i < l.length := by
  intro l
  induction l with
  | nil => intro c i h; cases h
  | cons c0 rest ih =>
    intro c i h
    simp only [colIdx] at h
    by_cases hc : c0 = c
    · rw [if_pos hc] at h
      injection h with h2
      simp only [List.length_cons]
      omega
    · rw [if_neg hc] at h
      cases hrec : colIdx rest c with
      | none => rw [hrec] at h; cases h
      | some j =>
        rw [hrec] at h
        have h2 : j + 1 = i := Option.some.inj h
        have := ih c j hrec
        simp only [List.length_cons]
        omega

theorem colIdx_get :
    ∀ (l : List String) (c : String) (i : Nat), colIdx l c = some i → l.get? i = some c := by
  intro l
  induction l with
  | nil => intro c i h; cases h
  | cons c0 rest ih =>
    intro c i h
    simp only [colIdx] at h
    by_cases hc : c0 = c
    · rw [if_pos hc] at h
      injection h with h2
      rw [← h2]
      simp [hc]
    · rw [if_neg hc] at h
      cases hrec : colIdx rest c with
      | none => rw [hrec] at h; cases h
      | some j =>
        rw [hrec] at h
        have h2 : j + 1 = i := Option.some.inj h
        rw [← h2]
        simpa using ih c j hrec

/-- Distinct names never share a column index. -/
theorem colIdx_inj (l : List String) (c c2 : String) (i : Nat)
    (h1 : colIdx l c = some i) (h2 : colIdx l c2 = some i) : c = c2 := by
  have g1 := colIdx_get l c i h1
  have g2 := colIdx_get l c2 i h2
  rw [g1] at g2
  exact Option.some.inj g2

theorem getCell_set_ne (l : List (Option String)) (i j : Nat) (v : Option String)
    (h : i ≠ j) : getCell (l.set i v) j = getCell l j := by
  unfold getCell
  rw [get?_set_ne l i j v h]

theorem getCell_set_self (l : List (Option String)) (i : Nat) (x : String)
    (h : i < l.length) : getCell (l.set i (some x)) i = some x := by
  unfold getCell
  rw [get?_set_self l i (some x) h]
  rfl

/-- How the per-row write-back of `update_results` changes one row: the five
result columns (sitting at indices `n0 .. n0+4`) receive the corresponding
result fields, a `url`-named caller column (always left of the result block)
receives the result URL, and every other cell is untouched. -/
theorem applyResult_spec (cols : List String) (r : ScrapingResult)
    (row : List (Option String)) (n0 : Nat)
    (hlen : row.length = n0 + 5)
    (hst : colIdx cols "status" = some n0)
    (hpl : colIdx cols "platform" = some (n0 + 1))
    (hin : colIdx cols "info" = some (n0 + 2))
    (hts : colIdx cols "timestamp" = some (n0 + 3))
    (hem : colIdx cols "error_message" = some (n0 + 4))
    (hurl : ∀ j, colIdx cols "url" = some j → j < n0) :
    getCell (applyResult cols r row) n0 = some r.status ∧
    getCell (applyResult cols r row) (n0 + 1) = some r.platform ∧
    getCell (applyResult cols r row) (n0 + 2) = some r.info ∧
    getCell (applyResult cols r row) (n0 + 3) = some r.timestamp ∧
    getCell (applyResult cols r row) (n0 + 4) = some r.error_message ∧
    (∀ j, j < n0 → colIdx cols "url" ≠ some j →
      getCell (applyResult cols r row) j = getCell row j) ∧
    (∀ j, colIdx cols "url" = some j →
      getCell (applyResult cols r row) j = some r.url) := by
  cases hjurl : colIdx cols "url" with
  | none =>
    have hT : applyResult cols r row =
        ((((row.set n0 (some r.status)).set (n0 + 2) (some r.info)).set
          (n0 + 3) (some r.timestamp)).set (n0 + 4) (some r.error_message)).set
          (n0 + 1) (some r.platform) := by
      simp only [applyResult, rdPairs, List.foldl_cons, List.foldl_nil,
        hjurl, hst, hpl, hin, hts, hem]
    refine ⟨?_, ?_, ?_, ?_, ?_, ?_, ?_⟩
    · rw [hT, getCell_set_ne _ _ _ _ (by omega), getCell_set_ne _ _ _ _ (by omega),
        getCell_set_ne _ _ _ _ (by omega), getCell_set_ne _ _ _ _ (by omega)]
      exact getCell_set_self row n0 r.status (by omega)
    · rw [hT]
      exact getCell_set_self _ (n0 + 1) r.platform
        (by simp only [List.length_set]; omega)
    · rw [hT, getCell_set_ne _ _ _ _ (by omega), getCell_set_ne _ _ _ _ (by omega),
        getCell_set_ne _ _ _ _ (by omega)]
      exact getCell_set_self _ (n0 + 2) r.info
        (by simp only [List.length_set]; omega)
    · rw [hT, getCell_set_ne _ _ _ _ (by omega), getCell_set_ne _ _ _ _ (by omega)]
      exact getCell_set_self _ (n0 + 3) r.timestamp
        (by simp only [List.length_set]; omega)
    · rw [hT, getCell_set_ne _ _ _ _ (by omega)]
      exact getCell_set_self _ (n0 + 4) r.error_message
        (by simp only [List.length_set]; omega)
    · intro j hj _
      rw [hT, getCell_set_ne _ _ _ _ (by omega), getCell_set_ne _ _ _ _ (by omega),
        getCell_set_ne _ _ _ _ (by omega), getCell_set_ne _ _ _ _ (by omega),
        getCell_set_ne _ _ _ _ (by omega)]
    · intro j hj
      cases hj
  | some j0 =>
    have hj0 : j0 < n0 := hurl j0 hjurl
    have hT : applyResult cols r row =
        (((((row.set j0 (some r.url)).set n0 (some r.status)).set
          (n0 + 2) (some r.info)).set (n0 + 3) (some r.timestamp)).set
          (n0 + 4) (some r.error_message)).set (n0 + 1) (some r.platform) := by
      simp only [applyResult, rdPairs, List.foldl_cons, List.foldl_nil,
        hjurl, hst, hpl, hin, hts, hem]
    refine ⟨?_, ?_, ?_, ?_, ?_, ?_, ?_⟩
    · rw [hT, getCell_set_ne _ _ _ _ (by omega), getCell_set_ne _ _ _ _ (by omega),
        getCell_set_ne _ _ _ _ (by omega), getCell_set_ne _ _ _ _ (by omega)]
      exact getCell_set_self _ n0 r.status (by simp only [List.length_set]; omega)
    · rw [hT]
      exact getCell_set_self _ (n0 + 1) r.platform
        (by simp only [List.length_set]; omega)
    · rw [hT, getCell_set_ne _ _ _ _ (by omega), getCell_set_ne _ _ _ _ (by omega),
        getCell_set_ne _ _ _ _ (by omega)]
      exact getCell_set_self _ (n0 + 2) r.info
        (by simp only [List.length_set]; omega)
    · rw [hT, getCell_set_ne _ _ _ _ (by omega), getCell_set_ne _ _ _ _ (by omega)]
      exact getCell_set_self _ (n0 + 3) r.timestamp
        (by simp only [List.length_set]; omega)
    · rw [hT, getCell_set_ne _ _ _ _ (by omega)]
      exact getCell_set_self _ (n0 + 4) r.error_message
        (by simp only [List.length_set]; omega)
    · intro j hj hne
      have hj0ne : j0 ≠ j := fun hc => hne (by rw [hc])
      rw [hT, getCell_set_ne _ _ _ _ (by omega), getCell_set_ne _ _ _ _ (by omega),
        getCell_set_ne _ _ _ _ (by omega), getCell_set_ne _ _ _ _ (by omega),
        getCell_set_ne _ _ _ _ (by omega)]
      exact getCell_set_ne row j0 j (some r.url) hj0ne
    · intro j hj
      have hjj : j0 = j := Option.some.inj hj
      subst hjj
      rw [hT, getCell_set_ne _ _ _ _ (by omega), getCell_set_ne _ _ _ _ (by omega),
        getCell_set_ne _ _ _ _ (by omega), getCell_set_ne _ _ _ _ (by omega),
        getCell_set_ne _ _ _ _ (by omega)]
      exact getCell_set_self row j0 r.url (by omega)

/-- Positions of the five result columns (and of a possible caller `url`
column) in the joined table of a fresh input. -/
theorem cols1_facts (df0 : Df) (hfresh : ∀ c ∈ resultColumns, c ∉ df0.cols) :
    colIdx (df0.cols ++ resultColumns) "status" = some df0.cols.length ∧
    colIdx (df0.cols ++ resultColumns) "platform" = some (df0.cols.length + 1) ∧
    colIdx (df0.cols ++ resultColumns) "info" = some (df0.cols.length + 2) ∧
    colIdx (df0.cols ++ resultColumns) "timestamp" = some (df0.cols.length + 3) ∧
    colIdx (df0.cols ++ resultColumns) "error_message" = some (df0.cols.length + 4) ∧
    (∀ j, colIdx (df0.cols ++ resultColumns) "url" = some j → j < df0.cols.length) := by
  have hs := colIdx_append_right df0.cols resultColumns "status"
    (hfresh "status" (by simp [resultColumns]))
  have hp := colIdx_append_right df0.cols resultColumns "platform"
    (hfresh "platform" (by simp [resultColumns]))
  have hi := colIdx_append_right df0.cols resultColumns "info"
    (hfresh "info" (by simp [resultColumns]))
  have ht := colIdx_append_right df0.cols resultColumns "timestamp"
    (hfresh "timestamp" (by simp [resultColumns]))
  have he := colIdx_append_right df0.cols resultColumns "error_message"
    (hfresh "error_message" (by simp [resultColumns]))
  rw [show colIdx resultColumns "status" = some 0 from by decide] at hs
  rw [show colIdx resultColumns "platform" = some 1 from by decide] at hp
  rw [show colIdx resultColumns "info" = some 2 from by decide] at hi
  rw [show colIdx resultColumns "timestamp" = some 3 from by decide] at ht
  rw [show colIdx resultColumns "error_message" = some 4 from by decide] at he
  refine ⟨?_, ?_, ?_, ?_, ?_, ?_⟩
  · rw [hs]; simp
  · rw [hp]; simp [Nat.add_comm]
  · rw [hi]; simp [Nat.add_comm]
  · rw [ht]; simp [Nat.add_comm]
  · rw [he]; simp [Nat.add_comm]
  · intro j hj
    rw [colIdx_append_stable df0.cols resultColumns "url" (by decide)] at hj
    exact colIdx_lt df0.cols "url" j hj

/-- C7 (confirmed): the join of classification results onto the input table
matches rows to results purely by the value of the URL cell of the row — not by
position — and a row whose URL has no matching result keeps all five result
columns empty (the empty string put there by `add_result_columns`), while a
matched row receives exactly the fields of its result. -/
theorem c7_join_by_url (df0 : Df) (results : List ScrapingResult)
    (urlCol : String) (udx i : Nat) (row0 : List (Option String))
    (hfresh : ∀ c ∈ resultColumns, c ∉ df0.cols)
    (hwf : ∀ r ∈ df0.rows, r.length = df0.cols.length)
    (hucol : colIdx df0.cols urlCol = some udx)
    (hrow : df0.rows.get? i = some row0) :
    ∃ row2, (update_results (add_result_columns df0) results urlCol).rows.get? i
        = some row2 ∧
      (lookupLast results (pyStr (getCell row0 udx)) = none →
        getCell row2 df0.cols.length = some "" ∧
        getCell row2 (df0.cols.length + 1) = some "" ∧
        getCell row2 (df0.cols.length + 2) = some "" ∧
        getCell row2 (df0.cols.length + 3) = some "" ∧
        getCell row2 (df0.cols.length + 4) = some "") ∧
      (∀ res, lookupLast results (pyStr (getCell row0 udx)) = some res →
        getCell row2 df0.cols.length = some res.status ∧
        getCell row2 (df0.cols.length + 1) = some res.platform ∧
        getCell row2 (df0.cols.length + 2) = some res.info ∧
        getCell row2 (df0.cols.length + 3) = some res.timestamp ∧
        getCell row2 (df0.cols.length + 4) = some res.error_message) := by
  have hl0 : row0.length = df0.cols.length := hwf row0 (List.get?_mem hrow)
  have hudlt : udx < df0.cols.length := colIdx_lt _ _ _ hucol
  have hcell : getCell (row0 ++ pad5) udx = getCell row0 udx := by
    unfold getCell
    rw [get?_append_lt _ _ _ (by omega)]
  have hlen5 : (row0 ++ pad5).length = df0.cols.length + 5 := by
    simp [pad5, hl0]
  have hpadcell : ∀ k, k < 5 → getCell (row0 ++ pad5) (df0.cols.length + k) = some "" := by
    intro k hk
    unfold getCell
    rw [get?_append_ge row0 pad5 (df0.cols.length + k) (by omega)]
    rw [hl0]
    have hsub : df0.cols.length + k - df0.cols.length = k := by omega
    rw [hsub]
    interval_cases k <;> rfl
  have hcols1 : colIdx (df0.cols ++ resultColumns) urlCol = some udx :=
    colIdx_append_inl _ _ _ _ hucol
  obtain ⟨f1, f2, f3, f4, f5, f6⟩ := cols1_facts df0 hfresh
  rw [add_result_columns_of_fresh df0 hfresh]
  unfold update_results
  dsimp only
  rw [hcols1]
  refine ⟨updRow (df0.cols ++ resultColumns) results udx (row0 ++ pad5), ?_, ?_, ?_⟩
  · rw [List.get?_map, List.get?_map, hrow]
    rfl
  · intro hm
    have hupd : updRow (df0.cols ++ resultColumns) results udx (row0 ++ pad5)
        = row0 ++ pad5 := by
      unfold updRow
      rw [hcell, hm]
    rw [hupd]
    exact ⟨by simpa using hpadcell 0 (by omega), hpadcell 1 (by omega),
      hpadcell 2 (by omega), hpadcell 3 (by omega), hpadcell 4 (by omega)⟩
  · intro res hm
    have hupd : updRow (df0.cols ++ resultColumns) results udx (row0 ++ pad5)
        = applyResult (df0.cols ++ resultColumns) res (row0 ++ pad5) := by
      unfold updRow
      rw [hcell, hm]
    rw [hupd]
    obtain ⟨a1, a2, a3, a4, a5, _, _⟩ :=
      applyResult_spec (df0.cols ++ resultColumns) res (row0 ++ pad5)
        df0.cols.length hlen5 f1 f2 f3 f4 f5 f6
    exact ⟨a1, a2, a3, a4, a5⟩

/-- C7 witness: the characterization applied at a concrete two-row table
where only the URL of the first row has a result; the second row keeps all five
result cells empty. -/
theorem c7_witness :
    (∃ row2, (update_results
        (add_result_columns ⟨["link"], [[some "u1"], [some "u2"]]⟩)
        [{ url := "u1", status := "Removed", info := "Video unavailable",
           timestamp := "t", error_message := "", platform := "youtube" }]
        "link").rows.get? 1 = some row2 ∧
      (lookupLast
          [{ url := "u1", status := "Removed", info := "Video unavailable",
             timestamp := "t", error_message := "", platform := "youtube" }]
          (pyStr (getCell [some "u2"] 0)) = none →
        getCell row2 1 = some "" ∧ getCell row2 2 = some "" ∧
        getCell row2 3 = some "" ∧ getCell row2 4 = some "" ∧
        getCell row2 5 = some "") ∧
      (∀ res, lookupLast
          [{ url := "u1", status := "Removed", info := "Video unavailable",
             timestamp := "t", error_message := "", platform := "youtube" }]
          (pyStr (getCell [some "u2"] 0)) = some res →
        getCell row2 1 = some res.status ∧ getCell row2 2 = some res.platform ∧
        getCell row2 3 = some res.info ∧ getCell row2 4 = some res.timestamp ∧
        getCell row2 5 = some res.error_message)) :=
  c7_join_by_url ⟨["link"], [[some "u1"], [some "u2"]]⟩
    [{ url := "u1", status := "Removed", info := "Video unavailable",
       timestamp := "t", error_message := "", platform := "youtube" }]
    "link" 0 1 [some "u2"]
    (by decide) (by decide) (by decide) (by decide)

/-- The status cell a row carries after the write-back: the empty string
from the padding when the URL of the row matches no result, and the status
of the matched result otherwise. -/
theorem updRow_status_cell (cols1 : List String) (results : List ScrapingResult)
    (udx n0 : Nat) (row : List (Option String))
    (hl : row.length = n0) (hudlt : udx < n0)
    (f1 : colIdx cols1 "status" = some n0)
    (f2 : colIdx cols1 "platform" = some (n0 + 1))
    (f3 : colIdx cols1 "info" = some (n0 + 2))
    (f4 : colIdx cols1 "timestamp" = some (n0 + 3))
    (f5 : colIdx cols1 "error_message" = some (n0 + 4))
    (f6 : ∀ j, colIdx cols1 "url" = some j → j < n0) :
    (getCell row udx = none → lookupLast results "nan" = none →
      getCell (updRow cols1 results udx (row ++ pad5)) n0 = some "") ∧
    (∀ u res, getCell row udx = some u → lookupLast results u = some res →
      getCell (updRow cols1 results udx (row ++ pad5)) n0 = some res.status) := by
  have hcell : getCell (row ++ pad5) udx = getCell row udx := by
    unfold getCell
    rw [get?_append_lt _ _ _ (by omega)]
  have hlen5 : (row ++ pad5).length = n0 + 5 := by simp [pad5, hl]
  constructor
  · intro hc hnanL
    have hupd : updRow cols1 results udx (row ++ pad5) = row ++ pad5 := by
      unfold updRow
      rw [hcell, hc]
      show (match lookupLast results "nan" with
        | none => row ++ pad5
        | some r => applyResult cols1 r (row ++ pad5)) = row ++ pad5
      rw [hnanL]
    rw [hupd]
    unfold getCell
    rw [get?_append_ge row pad5 n0 (by omega), hl]
    have hsub : n0 - n0 = 0 := by omega
    rw [hsub]
    rfl
  · intro u res hc hres
    have hupd : updRow cols1 results udx (row ++ pad5)
        = applyResult cols1 res (row ++ pad5) := by
      unfold updRow
      rw [hcell, hc]
      show (match lookupLast results u with
        | none => row ++ pad5
        | some r => applyResult cols1 r (row ++ pad5))
        = applyResult cols1 res (row ++ pad5)
      rw [hres]
    rw [hupd]
    exact (applyResult_spec cols1 res (row ++ pad5) n0 hlen5 f1 f2 f3 f4 f5 f6).1

/-- The seven per-status row counts of the joined table sum to the number of
rows whose URL cell is present: every matched row lands in exactly one
status class, every NaN-URL row in none. -/
theorem bucket_sum_core (cols1 : List String) (results : List ScrapingResult)
    (udx n0 : Nat) (hudlt : udx < n0)
    (f1 : colIdx cols1 "status" = some n0)
    (f2 : colIdx cols1 "platform" = some (n0 + 1))
    (f3 : colIdx cols1 "info" = some (n0 + 2))
    (f4 : colIdx cols1 "timestamp" = some (n0 + 3))
    (f5 : colIdx cols1 "error_message" = some (n0 + 4))
    (f6 : ∀ j, colIdx cols1 "url" = some j → j < n0)
    (hnanL : lookupLast results "nan" = none) :
    ∀ rows0 : List (List (Option String)),
      (∀ r ∈ rows0, r.length = n0) →
      (∀ r ∈ rows0, ∀ u, getCell r udx = some u →
        ∃ res, lookupLast results u = some res ∧ res.status ∈ statuses7) →
      rows0.countP
          (fun r => getCell (updRow cols1 results udx (r ++ pad5)) n0 == some "Live")
        + (rows0.countP
            (fun r => getCell (updRow cols1 results udx (r ++ pad5)) n0 == some "Removed")
          + rows0.countP
            (fun r => getCell (updRow cols1 results udx (r ++ pad5)) n0 == some "Age-restricted")
          + rows0.countP
            (fun r => getCell (updRow cols1 results udx (r ++ pad5)) n0 == some "Geo-blocked")
          + rows0.countP
            (fun r => getCell (updRow cols1 results udx (r ++ pad5)) n0 == some "Private"))
        + rows0.countP
            (fun r => getCell (updRow cols1 results udx (r ++ pad5)) n0 == some "Restricted")
        + rows0.countP
            (fun r => getCell (updRow cols1 results udx (r ++ pad5)) n0 == some "Error")
      = rows0.countP (fun r => (getCell r udx).isSome) := by
  intro rows0
  induction rows0 with
  | nil => intro _ _; simp
  | cons row rest ih =>
    intro hwf hmatch
    have hwr : row.length = n0 := hwf row (List.mem_cons_self row rest)
    have ihr := ih (fun r hr => hwf r (List.mem_cons_of_mem row hr))
      (fun r hr => hmatch r (List.mem_cons_of_mem row hr))
    simp only [List.countP_cons]
    cases hc : getCell row udx with
    | none =>
      have hcell0 := (updRow_status_cell cols1 results udx n0 row hwr hudlt
        f1 f2 f3 f4 f5 f6).1 hc hnanL
      simp only [hcell0, hc]
      simp only [show ((some "" == some "Live") = true) = False from by simp,
        show ((some "" == some "Removed") = true) = False from by simp,
        show ((some "" == some "Age-restricted") = true) = False from by simp,
        show ((some "" == some "Geo-blocked") = true) = False from by simp,
        show ((some "" == some "Private") = true) = False from by simp,
        show ((some "" == some "Restricted") = true) = False from by simp,
        show ((some "" == some "Error") = true) = False from by simp,
        show ((none : Option String).isSome = true) = False from by simp]
      simp only [if_false]
      omega
    | some u =>
      obtain ⟨res, hres, hmem⟩ := hmatch row (List.mem_cons_self row rest) u hc
      have hcellv := (updRow_status_cell cols1 results udx n0 row hwr hudlt
        f1 f2 f3 f4 f5 f6).2 u res hc hres
      simp only [statuses7, List.mem_cons, List.mem_singleton,
        List.not_mem_nil, or_false] at hmem
      rcases hmem with h | h | h | h | h | h | h <;>
        (rw [h] at hcellv
         simp only [hcellv, hc, Option.isSome_some]
         simp
         omega)

theorem getLast?_mem {α : Type} : ∀ (l : List α) (a : α), l.getLast? = some a → a ∈ l := by
  intro l
  induction l with
  | nil => intro a h; cases h
  | cons x rest ih =>
    intro a h
    cases rest with
    | nil =>
      simp only [List.getLast?_singleton] at h
      cases h
      exact List.mem_singleton_self x
    | cons y t =>
      rw [List.getLast?_cons_cons] at h
      exact List.mem_cons_of_mem x (ih a h)

theorem getLast?_of_ne_nil {α : Type} :
    ∀ l : List α, l ≠ [] → ∃ a, l.getLast? = some a := by
  intro l
  induction l with
  | nil => intro h; exact absurd rfl h
  | cons x rest ih =>
    intro _
    cases rest with
    | nil => exact ⟨x, rfl⟩
    | cons y t =>
      obtain ⟨a, ha⟩ := ih (by simp)
      exact ⟨a, by rw [List.getLast?_cons_cons]; exact ha⟩

theorem lookupLast_spec (results : List ScrapingResult) (u : String)
    (res : ScrapingResult) (h : lookupLast results u = some res) :
    res ∈ results ∧ res.url = u := by
  unfold lookupLast at h
  have hmem := getLast?_mem _ res h
  have := List.mem_filter.mp hmem
  exact ⟨this.1, by simpa using this.2⟩

theorem lookupLast_isSome_of_mem (results : List ScrapingResult) (u : String)
    (res : ScrapingResult) (hmem : res ∈ results) (hurl : res.url = u) :
    ∃ res2, lookupLast results u = some res2 := by
  unfold lookupLast
  apply getLast?_of_ne_nil
  intro hnil
  have : res ∈ results.filter (fun r => r.url == u) :=
    List.mem_filter.mpr ⟨hmem, by simpa using hurl⟩
  rw [hnil] at this
  cases this

theorem filterMap_congr_mem {α β : Type} (f g : α → Option β) :
    ∀ l : List α, (∀ a ∈ l, f a = g a) → l.filterMap f = l.filterMap g := by
  intro l
  induction l with
  | nil => intro _; rfl
  | cons a rest ih =>
    intro h
    simp only [List.filterMap_cons]
    rw [h a (List.mem_cons_self a rest), ih (fun b hb => h b (List.mem_cons_of_mem a hb))]

/-- Every result a completed batch produces carries one of the seven
taxonomy statuses and the URL of one of the submitted URLs. -/
theorem process_batch_mem_spec (urls : List String) (envs : Nat → ScrapeEnv)
    (order : List Nat) (hperm : order.Perm (List.range urls.length))
    (res : ScrapingResult) (hres : res ∈ process_batch urls envs order) :
    res.status ∈ statuses7 ∧ res.url ∈ urls := by
  unfold process_batch at hres
  obtain ⟨k, hk, hfk⟩ := List.mem_map.mp hres
  have hkrange : k ∈ List.range urls.length := hperm.mem_iff.mp hk
  have hklt : k < urls.length := List.mem_range.mp hkrange
  constructor
  · rw [← hfk]; exact check_status_mem (envs k) (urls.getD k "")
  · rw [← hfk, check_url_eq]
    rw [List.getD_eq_getElem?_getD, List.getElem?_eq_getElem hklt]
    exact List.getElem_mem hklt

/-- Every submitted URL gets a result in a completed batch. -/
theorem process_batch_covers (urls : List String) (envs : Nat → ScrapeEnv)
    (order : List Nat) (hperm : order.Perm (List.range urls.length))
    (u : String) (hu : u ∈ urls) :
    ∃ res ∈ process_batch urls envs order, res.url = u := by
  obtain ⟨⟨k, hklt⟩, hget⟩ := List.get_of_mem hu
  have hkorder : k ∈ order :=
    hperm.mem_iff.mpr (List.mem_range.mpr hklt)
  refine ⟨check_url_status (envs k) (urls.getD k ""), ?_, ?_⟩
  · unfold process_batch
    exact List.mem_map.mpr ⟨k, hkorder, rfl⟩
  · rw [check_url_eq]
    rw [List.getD_eq_getElem?_getD, List.getElem?_eq_getElem hklt]
    exact hget

/-- The per-status counts of the joined table, pulled back to the input
rows. -/
theorem countStatus_joined (df0 : Df) (results : List ScrapingResult)
    (urlCol : String) (udx : Nat)
    (hfresh : ∀ c ∈ resultColumns, c ∉ df0.cols)
    (hucol : colIdx df0.cols urlCol = some udx) (v : String) :
    countStatus (update_results (add_result_columns df0) results urlCol) v
      = df0.rows.countP (fun r =>
          getCell (updRow (df0.cols ++ resultColumns) results udx (r ++ pad5))
            df0.cols.length == some v) := by
  rw [add_result_columns_of_fresh df0 hfresh]
  unfold update_results
  dsimp only
  rw [colIdx_append_inl _ _ _ _ hucol]
  unfold countStatus
  dsimp only
  rw [(cols1_facts df0 hfresh).1]
  dsimp only
  rw [List.countP_map, List.countP_map]
  rfl

/-- The URL list a completed extraction returns, pulled back to the input
rows. -/
theorem get_urls_ok_eq (df0 : Df) (urlCol : String) (udx : Nat)
    (urls : List String)
    (hfresh : ∀ c ∈ resultColumns, c ∉ df0.cols)
    (hwf : ∀ r ∈ df0.rows, r.length = df0.cols.length)
    (hucol : colIdx df0.cols urlCol = some udx)
    (hurls : get_urls_from_column (add_result_columns df0) urlCol = .ok urls) :
    urls = df0.rows.filterMap (fun r => getCell r udx) := by
  have hudlt : udx < df0.cols.length := colIdx_lt _ _ _ hucol
  rw [add_result_columns_of_fresh df0 hfresh] at hurls
  unfold get_urls_from_column at hurls
  dsimp only at hurls
  rw [colIdx_append_inl _ _ _ _ hucol] at hurls
  dsimp only at hurls
  split at hurls
  · cases hurls
  · have heq := Except.ok.inj hurls
    rw [← heq]
    rw [List.filterMap_map]
    apply filterMap_congr_mem
    intro r hr
    show getCell (r ++ pad5) udx = getCell r udx
    unfold getCell
    rw [get?_append_lt _ _ _ (by rw [hwf r hr]; omega)]

/-- C6 (confirmed): in every completed batch run over a fresh input table
(result columns not already present, well-formed rows, no literal `nan`
cell — pandas parses such text as NaN), the four final bucket counts
computed from the joined table sum exactly to `processed_count`, and
`processed_count` is the number of extracted URLs: every processed URL
contributes exactly one result, none is counted twice, none dropped. -/
theorem c6_buckets_sum_processed (path : String) (fileExists : Bool)
    (parsed : Except String Df) (mapping : List (String × String))
    (envs : Nat → ScrapeEnv) (order : List Nat)
    (saveOutcome : Option (Except String Unit)) (df0 : Df)
    (urls : List String) (udx : Nat)
    (hload : load_csv path fileExists parsed = .ok df0)
    (hfresh : ∀ c ∈ resultColumns, c ∉ df0.cols)
    (hwf : ∀ r ∈ df0.rows, r.length = df0.cols.length)
    (hnan : ∀ r ∈ df0.rows, ∀ c ∈ r, c ≠ some "nan")
    (hvalid : (validate_column_mapping df0 mapping).1 = true)
    (hucol : colIdx df0.cols ((pyDictGet mapping "post").getD "") = some udx)
    (hurls : get_urls_from_column (add_result_columns df0)
      ((pyDictGet mapping "post").getD "") = .ok urls)
    (hperm : order.Perm (List.range urls.length))
    (hsave : saveStep saveOutcome = .ok ()) :
    (process_csv path fileExists parsed "youtube" mapping envs order false
        saveOutcome).success = true ∧
    (process_csv path fileExists parsed "youtube" mapping envs order false
        saveOutcome).statsLive
      + (process_csv path fileExists parsed "youtube" mapping envs order false
        saveOutcome).statsRemoved
      + (process_csv path fileExists parsed "youtube" mapping envs order false
        saveOutcome).statsRestricted
      + (process_csv path fileExists parsed "youtube" mapping envs order false
        saveOutcome).statsErrors
      = (process_csv path fileExists parsed "youtube" mapping envs order false
        saveOutcome).processed_count ∧
    (process_csv path fileExists parsed "youtube" mapping envs order false
        saveOutcome).processed_count = urls.length := by
  have hudlt : udx < df0.cols.length := colIdx_lt _ _ _ hucol
  obtain ⟨f1, f2, f3, f4, f5, f6⟩ := cols1_facts df0 hfresh
  have hueq := get_urls_ok_eq df0 ((pyDictGet mapping "post").getD "") udx urls
    hfresh hwf hucol hurls
  have hnanL : lookupLast (process_batch urls envs order) "nan" = none := by
    cases hL : lookupLast (process_batch urls envs order) "nan" with
    | none => rfl
    | some res =>
      exfalso
      obtain ⟨hmem, hurl⟩ := lookupLast_spec _ "nan" res hL
      have hspec := process_batch_mem_spec urls envs order hperm res hmem
      have hnanmem : "nan" ∈ urls := by rw [← hurl]; exact hspec.2
      rw [hueq] at hnanmem
      obtain ⟨r, hr, hcellnan⟩ := List.mem_filterMap.mp hnanmem
      unfold getCell at hcellnan
      have hget : r.get? udx = some (some "nan") := Option.join_eq_some.mp hcellnan
      exact hnan r hr (some "nan") (List.get?_mem hget) rfl
  have hmatch : ∀ r ∈ df0.rows, ∀ u, getCell r udx = some u →
      ∃ res, lookupLast (process_batch urls envs order) u = some res ∧
        res.status ∈ statuses7 := by
    intro r hr u hcell
    have humem : u ∈ urls := by
      rw [hueq]
      exact List.mem_filterMap.mpr ⟨r, hr, hcell⟩
    obtain ⟨res0, hres0mem, hres0url⟩ :=
      process_batch_covers urls envs order hperm u humem
    obtain ⟨res2, hres2⟩ := lookupLast_isSome_of_mem _ u res0 hres0mem hres0url
    obtain ⟨hres2mem, _⟩ := lookupLast_spec _ u res2 hres2
    exact ⟨res2, hres2,
      (process_batch_mem_spec urls envs order hperm res2 hres2mem).1⟩
  have hcore := bucket_sum_core (df0.cols ++ resultColumns)
    (process_batch urls envs order) udx df0.cols.length hudlt
    f1 f2 f3 f4 f5 f6 hnanL df0.rows hwf hmatch
  have hcount := countStatus_joined df0 (process_batch urls envs order)
    ((pyDictGet mapping "post").getD "") udx hfresh hucol
  have hbatchlen : (process_batch urls envs order).length = urls.length := by
    unfold process_batch
    rw [List.length_map]
    exact hperm.length_eq.trans (List.length_range _)
  have hlenc : df0.rows.countP (fun r => (getCell r udx).isSome) = urls.length := by
    rw [hueq]
    exact (length_filterMap_eq_countP _ df0.rows).symm
  unfold process_csv
  rw [hload]
  dsimp only
  rw [if_neg (by rw [hvalid]; simp)]
  rw [if_pos rfl]
  rw [hurls]
  dsimp only
  rw [if_neg (by simp)]
  rw [hsave]
  refine ⟨rfl, ?_, ?_⟩
  · dsimp only
    rw [hcount "Live", hcount "Removed", hcount "Age-restricted",
      hcount "Geo-blocked", hcount "Private", hcount "Restricted",
      hcount "Error"]
    rw [hcore, hlenc, hbatchlen]
  · dsimp only
    exact hbatchlen

/-- C6 witness: the bucket-sum theorem applied at a concrete completed
two-URL run whose workers finish in reverse order. -/
theorem c6_witness :
    (process_csv "in.csv" true (.ok ⟨["link"], [[some "u1"], [some "u2"]]⟩)
        "youtube" [("post", "link")] (fun _ => envLive) [1, 0] false
        none).success = true ∧
    (process_csv "in.csv" true (.ok ⟨["link"], [[some "u1"], [some "u2"]]⟩)
        "youtube" [("post", "link")] (fun _ => envLive) [1, 0] false
        none).statsLive
      + (process_csv "in.csv" true (.ok ⟨["link"], [[some "u1"], [some "u2"]]⟩)
        "youtube" [("post", "link")] (fun _ => envLive) [1, 0] false
        none).statsRemoved
      + (process_csv "in.csv" true (.ok ⟨["link"], [[some "u1"], [some "u2"]]⟩)
        "youtube" [("post", "link")] (fun _ => envLive) [1, 0] false
        none).statsRestricted
      + (process_csv "in.csv" true (.ok ⟨["link"], [[some "u1"], [some "u2"]]⟩)
        "youtube" [("post", "link")] (fun _ => envLive) [1, 0] false
        none).statsErrors
      = (process_csv "in.csv" true (.ok ⟨["link"], [[some "u1"], [some "u2"]]⟩)
        "youtube" [("post", "link")] (fun _ => envLive) [1, 0] false
        none).processed_count ∧
    (process_csv "in.csv" true (.ok ⟨["link"], [[some "u1"], [some "u2"]]⟩)
        "youtube" [("post", "link")] (fun _ => envLive) [1, 0] false
        none).processed_count = ["u1", "u2"].length :=
  c6_buckets_sum_processed "in.csv" true
    (.ok ⟨["link"], [[some "u1"], [some "u2"]]⟩) [("post", "link")]
    (fun _ => envLive) [1, 0] none ⟨["link"], [[some "u1"], [some "u2"]]⟩
    ["u1", "u2"] 0
    (by decide) (by decide) (by decide) (by decide) (by decide) (by decide)
    (by decide) (by decide) rfl
